import Mathlib

/-!
Verification development for the QuickStock Express inventory backend.

The definitions below are a shallow embedding of the stock ledger
(`src/models/Stock.js`), the sale workflow (`saleController.js`), the
purchase workflow (`src/controllers/purchaseController.js`) and the
number-generating pre-save hooks of the `Sale` and `Purchase` models.
Mongo documents become Lean structures; collections become stores;
`async` functions that can fail become functions returning `Except`;
a Mongo session/transaction becomes explicit state passing where the
caller either keeps the updated store (commit) or the original store
(abort).  JavaScript numbers used for quantities, prices and stock are
modelled as `Int`.
-/

namespace QuickStock

/-- One embedded stock movement entry (`stockMovementSchema` in
`src/models/Stock.js`).  The `date` field of the schema is omitted:
no claim depends on wall-clock time. -/
structure MovementEntry where
  movementType : String
  quantity : Int
  notes : String
  sourceDocument : Option Nat
  sourceModel : Option String
  movedBy : Nat
deriving Repr, DecidableEq

/-- A stock document (`stockSchema`): the authoritative counter plus the
embedded movement history. -/
structure StockRecord where
  currentStock : Int
  movementHistory : List MovementEntry
deriving Repr, DecidableEq

/-- The `stocks` collection: at most one `StockRecord` per product id
(the schema declares `product` unique). -/
def StockStore := Nat → Option StockRecord

/-- Empty stock collection. -/
def StockStore.empty : StockStore := fun _ => none

/-- Replace (or create) the record of product `p`. -/
def StockStore.set (st : StockStore) (p : Nat) (r : StockRecord) : StockStore :=
  fun q => if q = p then some r else st q

/-- Current stock of product `p`, `0` when no record exists (the mongoose
upsert default for `currentStock`). -/
def currentStockOf (st : StockStore) (p : Nat) : Int :=
  match st p with
  | some r => r.currentStock
  | none => 0

/-- Movement history of product `p`, `[]` when no record exists. -/
def historyOf (st : StockStore) (p : Nat) : List MovementEntry :=
  match st p with
  | some r => r.movementHistory
  | none => []

/-- Errors thrown by `Stock.recordMovement` (the `throw new Error(...)`
sites of `src/models/Stock.js`). -/
inductive MovementError where
  | invalidQuantity
  | invalidType
  | stockRecordNotFound (productId : Nat)
  | insufficientStock (productId : Nat) (current : Int) (quantity : Int)
deriving Repr, DecidableEq

/-- The three movement types whose delta is `+quantity` in
`recordMovement` (`"purchase" || "adjustment" || "return"`). -/
def isIncreaseType (type : String) : Bool :=
  type = "purchase" || type = "adjustment" || type = "return"

/-- `Stock.findOneAndUpdate({product}, {$inc, $push}, {new:true, upsert:true})`:
with `upsert: true` a missing record is created from the schema defaults
(`currentStock = 0`, empty history) and, with `new: true`, the updated
document is always returned — the result is never `null`. -/
def findOneAndUpdateStock (st : StockStore) (p : Nat) (delta : Int)
    (entry : MovementEntry) : StockStore × Option StockRecord :=
  let base : StockRecord := (st p).getD { currentStock := 0, movementHistory := [] }
  let updated : StockRecord :=
    { currentStock := base.currentStock + delta
      movementHistory := base.movementHistory ++ [entry] }
  (st.set p updated, some updated)

/-- `Stock.recordMovement` (`src/models/Stock.js`, lines 71–146).  The
returned store is the state persisted by the storage layer at the moment
the function returns or throws: the `$inc`/`$push` write happens *before*
the negative-stock check, so on `insufficientStock` the returned store
already contains the decrement.  A transactional caller that aborts
discards that store (see `recordMovementTx`). -/
def recordMovement (st : StockStore) (productId : Nat) (type : String)
    (quantity : Int) (notes : String) (sourceDocument : Option Nat)
    (sourceModel : Option String) (movedBy : Nat) :
    StockStore × Except MovementError StockRecord :=
  if quantity ≤ 0 then (st, .error .invalidQuantity)
  else
    let updateQuantity? : Option Int :=
      if type = "sale" then some (-quantity)
      else if isIncreaseType type then some quantity
      else none
    match updateQuantity? with
    | none => (st, .error .invalidType)
    | some updateQuantity =>
      let movementEntry : MovementEntry :=
        { movementType := type, quantity := quantity, notes := notes
          sourceDocument := sourceDocument, sourceModel := sourceModel
          movedBy := movedBy }
      let res := findOneAndUpdateStock st productId updateQuantity movementEntry
      match res.2 with
      | none => (res.1, .error (.stockRecordNotFound productId))
      | some updatedStock =>
        if updatedStock.currentStock < 0 then
          (res.1, .error (.insufficientStock productId updatedStock.currentStock quantity))
        else (res.1, .ok updatedStock)

/-- `recordMovement` as seen by a caller that runs it inside a mongoose
session and aborts the transaction on any thrown error: on success the
updated store is committed, on error nothing is persisted. -/
def recordMovementTx (st : StockStore) (productId : Nat) (type : String)
    (quantity : Int) (notes : String) (sourceDocument : Option Nat)
    (sourceModel : Option String) (movedBy : Nat) :
    Except MovementError (StockStore × StockRecord) :=
  match recordMovement st productId type quantity notes sourceDocument sourceModel movedBy with
  | (st1, .ok r) => .ok (st1, r)
  | (_, .error e) => .error e

/-! ### String helpers modelling JavaScript primitives -/

/-- Digits at the front of a character list. -/
def digitsAt (cs : List Char) : List Char := cs.takeWhile Char.isDigit

/-- Decimal value of a digit list. -/
def digitsToNat (cs : List Char) : Nat :=
  cs.foldl (fun n c => n * 10 + (c.toNat - 48)) 0

/-- JavaScript `parseInt(s)` (base 10): skip leading spaces, optional sign,
then the longest digit run; `none` models `NaN`. -/
def parseIntJS (s : String) : Option Int :=
  let cs := s.data.dropWhile (fun c => c = ' ')
  match cs with
  | '-' :: rest =>
    if (digitsAt rest).isEmpty then none else some (-(digitsToNat (digitsAt rest) : Int))
  | '+' :: rest =>
    if (digitsAt rest).isEmpty then none else some (digitsToNat (digitsAt rest) : Int)
  | _ =>
    if (digitsAt cs).isEmpty then none else some (digitsToNat (digitsAt cs) : Int)

/-- Remove the first occurrence of `pat` from a character list (JavaScript
`String.prototype.replace` with a string pattern and empty replacement). -/
def replaceFirstAux (pat : List Char) : List Char → List Char
  | [] => []
  | c :: rest =>
    if pat.isPrefixOf (c :: rest) then (c :: rest).drop pat.length
    else c :: replaceFirstAux pat rest

/-- JavaScript `s.replace(pat, "")` for a plain-string `pat`. -/
def replaceFirst (s pat : String) : String :=
  ⟨replaceFirstAux pat.data s.data⟩

/-- JavaScript `s.padStart(len, c)`. -/
def padStart (s : String) (len : Nat) (c : Char) : String :=
  ⟨List.replicate (len - s.length) c⟩ ++ s

/-- Mongoose string setters `trim: true, uppercase: true` applied on
assignment to `invoiceNumber` / `purchaseNumber`: strip whitespace from
both ends, then uppercase. -/
def applyStringSetters (s : String) : String :=
  ⟨((s.data.dropWhile Char.isWhitespace).reverse.dropWhile Char.isWhitespace).reverse.map
      Char.toUpper⟩

/-- Code-point lexicographic comparison, as MongoDB orders plain strings
(byte-wise UTF-8 comparison; identical to code-point order here). -/
def charListLt : List Char → List Char → Bool
  | [], [] => false
  | [], _ :: _ => true
  | _ :: _, [] => false
  | a :: as, b :: bs =>
    if a.toNat < b.toNat then true
    else if b.toNat < a.toNat then false
    else charListLt as bs

/-- String comparison used by a descending sort on a string field. -/
def strLt (a b : String) : Bool := charListLt a.data b.data

/-! ### Sale model (`src/models/Sale.js`) -/

/-- An item embedded in a sale document (`saleItemSchema`). -/
structure SaleItem where
  product : Nat
  quantity : Int
  unitPrice : Int
  totalPrice : Int
deriving Repr, DecidableEq

/-- A sale document (`saleSchema`; `customer`, `saleDate` and `notes`
carry no claim-relevant behaviour and are omitted). -/
structure Sale where
  id : Nat
  invoiceNumber : String
  items : List SaleItem
  totalAmount : Int
  paymentMethod : String
  createdBy : Nat
deriving Repr, DecidableEq

/-- `Sale.findOne({}, {invoiceNumber: 1}).sort({invoiceNumber: -1})`: the
lexicographically greatest `invoiceNumber` in the collection. -/
def lastInvoiceNumber (sales : List Sale) : Option String :=
  sales.foldl
    (fun acc s =>
      match acc with
      | none => some s.invoiceNumber
      | some m => if strLt m s.invoiceNumber then some s.invoiceNumber else some m)
    none

/-- Body of the invoice-number generator in the `Sale` pre-save hook:
parse the numeric suffix of the sorted-last invoice number (`1` when the
collection is empty or the suffix does not parse), add one, format as
`INV-` plus the value padded to six characters. -/
def saleNextInvoiceNumber (sales : List Sale) : String :=
  let nextNumber : Int :=
    match lastInvoiceNumber sales with
    | none => 1
    | some inv =>
      match parseIntJS (replaceFirst inv "INV-") with
      | some lastNum => lastNum + 1
      | none => 1
  "INV-" ++ padStart (toString nextNumber) 6 '0'

/-- The `Sale` pre-save hook (`src/models/Sale.js`, lines 72–98):
recompute `totalAmount` from the item totals, then generate an invoice
number only when the document is new and `invoiceNumber` is falsy
(absent fields are modelled as `""`, which is falsy in JavaScript). -/
def salePreSave (sales : List Sale) (s : Sale) (isNew : Bool) : Sale :=
  let s1 := { s with totalAmount := s.items.foldl (fun sum it => sum + it.totalPrice) 0 }
  if isNew && s1.invoiceNumber = "" then
    { s1 with invoiceNumber := saleNextInvoiceNumber sales }
  else s1

/-! ### Purchase model (`src/models/Purchase.js`) -/

/-- The `purchaseStatus` enum. -/
inductive PurchaseStatus where
  | ordered
  | received
  | cancelled
deriving Repr, DecidableEq

/-- An item embedded in a purchase document (`purchaseItemSchema`). -/
structure PurchaseItem where
  product : Nat
  quantity : Int
  unitCost : Int
  totalCost : Int
deriving Repr, DecidableEq

/-- A purchase document (`purchaseSchema`; `orderDate` and `notes` are
omitted). -/
structure Purchase where
  id : Nat
  purchaseNumber : String
  supplier : Nat
  items : List PurchaseItem
  totalAmount : Int
  purchaseStatus : PurchaseStatus
  paymentMethod : String
  createdBy : Nat
deriving Repr, DecidableEq

/-- The `Purchase` pre-save hook (`src/models/Purchase.js`, lines 83–86):
it only recomputes `totalAmount`; unlike the `Sale` hook it generates no
document number. -/
def purchasePreSave (p : Purchase) : Purchase :=
  { p with totalAmount := p.items.foldl (fun sum it => sum + it.totalCost) 0 }

/-- Mongoose validation of a `Purchase` on `save()`: `purchaseNumber` is
`required: true`, which for a string field rejects both a missing value
and the empty string. -/
def purchaseValid (p : Purchase) : Bool :=
  ¬ p.purchaseNumber = ""

/-! ### Referenced collections and the database state -/

/-- The claim-relevant part of a product document. -/
structure ProductDoc where
  isActive : Bool
  createdBy : Nat
deriving Repr, DecidableEq

/-- The claim-relevant part of a supplier document. -/
structure SupplierDoc where
  isActive : Bool
  createdBy : Nat
deriving Repr, DecidableEq

/-- The persisted database state used by the workflows. -/
structure DB where
  products : Nat → Option ProductDoc
  suppliers : Nat → Option SupplierDoc
  stocks : StockStore
  sales : List Sale
  purchases : List Purchase

/-- The empty database. -/
def DB.empty : DB :=
  { products := fun _ => none
    suppliers := fun _ => none
    stocks := StockStore.empty
    sales := []
    purchases := [] }

/-! ### A shared fold for sequences of in-transaction ledger updates -/

/-- The arguments of one `Stock.recordMovement` call other than the
product id and the session. -/
structure MovementCall where
  type : String
  quantity : Int
  notes : String
  sourceDocument : Option Nat
  sourceModel : Option String
  movedBy : Nat
deriving Repr, DecidableEq

/-- The movement entry `recordMovement` pushes for a call. -/
def entryOf (c : MovementCall) : MovementEntry :=
  { movementType := c.type, quantity := c.quantity, notes := c.notes
    sourceDocument := c.sourceDocument, sourceModel := c.sourceModel
    movedBy := c.movedBy }

/-- A `for (const item of ...) await Stock.recordMovement(...)` loop
inside a transaction: run the calls left to right, stopping (and hence
aborting) at the first error. -/
def runCalls : StockStore → List (Nat × MovementCall) → Except MovementError StockStore
  | st, [] => .ok st
  | st, (p, c) :: rest =>
    match recordMovementTx st p c.type c.quantity c.notes c.sourceDocument
        c.sourceModel c.movedBy with
    | .error e => .error e
    | .ok (st1, _) => runCalls st1 rest

/-! ### Sale workflow (`saleController.js`) -/

/-- The error responses of the sale controller together with the errors
re-raised from the model layer. -/
inductive SaleError where
  | paymentMethodRequired
  | emptyItems
  | itemFieldsMissing
  | invalidQuantity (productId : Nat)
  | invalidUnitPrice (productId : Nat)
  | productNotFoundOrInactive (productId : Nat)
  | insufficientStockPre (productId : Nat)
  | duplicateInvoiceNumber (inv : String)
  | validationFailed
  | saleNotFound
  | movement (e : MovementError)
deriving Repr, DecidableEq

/-- One entry of `req.body.items` for a sale. -/
structure SaleItemReq where
  product : Option Nat
  quantity : Option Int
  unitPrice : Option Int
deriving Repr, DecidableEq

/-- The claim-relevant fields of a `POST /api/sales/create` body.  The
controller spreads the whole raw body into the document, so a
client-supplied `invoiceNumber` is part of the request. -/
structure SaleReq where
  invoiceNumber : Option String
  items : Option (List SaleItemReq)
  paymentMethod : Option String
deriving Repr, DecidableEq

/-- Stage 1 of `createSale`: per-item field checks, product
ownership/activity check, and the optimistic stock pre-check
(`stock.currentStock < item.quantity`).  Returns the items with their
computed `totalPrice`. -/
def validateSaleItems (db : DB) (userId : Nat) :
    List SaleItemReq → Except SaleError (List SaleItem)
  | [] => .ok []
  | item :: rest =>
    match item.product, item.quantity, item.unitPrice with
    | some pid, some q, some up =>
      -- `!item.quantity`: the number 0 is falsy in JavaScript
      if q = 0 then .error .itemFieldsMissing
      else if q ≤ 0 then .error (.invalidQuantity pid)
      else if up < 0 then .error (.invalidUnitPrice pid)
      else
        let prodOk :=
          match db.products pid with
          | some prod => prod.createdBy = userId && prod.isActive
          | none => false
        if !prodOk then .error (.productNotFoundOrInactive pid)
        else
          let stockOk :=
            match db.stocks pid with
            | some stk => q ≤ stk.currentStock
            | none => false
          if !stockOk then .error (.insufficientStockPre pid)
          else
            match validateSaleItems db userId rest with
            | .error e => .error e
            | .ok restItems =>
              .ok ({ product := pid, quantity := q, unitPrice := up
                     totalPrice := q * up } :: restItems)
    | _, _, _ => .error .itemFieldsMissing

/-- `new Sale(saleData)`: the raw body fields (after schema setters) plus
the server-assigned `createdBy`; `totalAmount` is set by the pre-save
hook. -/
def mkSale (req : SaleReq) (items : List SaleItem) (userId : Nat) (newId : Nat) : Sale :=
  { id := newId
    invoiceNumber := applyStringSetters ((req.invoiceNumber).getD "")
    items := items
    totalAmount := 0
    paymentMethod := (req.paymentMethod).getD ""
    createdBy := userId }

/-- `sale.save({session})`: run the pre-save hook, mongoose enum
validation of `paymentMethod`, and the unique index on
`invoiceNumber`. -/
def saveSale (sales : List Sale) (s : Sale) : Except SaleError (List Sale × Sale) :=
  let s1 := salePreSave sales s true
  if ¬ (s1.paymentMethod = "cash" ∨ s1.paymentMethod = "online") then .error .validationFailed
  else if sales.any (fun t => t.invoiceNumber = s1.invoiceNumber) then
    .error (.duplicateInvoiceNumber s1.invoiceNumber)
  else .ok (sales ++ [s1], s1)

/-- `createSale` (`saleController.js`, first definition, lines 10–129).
The whole body runs in one mongoose transaction; every error path calls
`session.abortTransaction()` first, so on error the persisted database
is the original one. -/
def createSale (db : DB) (req : SaleReq) (userId : Nat) (newSaleId : Nat) :
    DB × Except SaleError Sale :=
  if (req.paymentMethod).getD "" = "" then (db, .error .paymentMethodRequired)
  else
    match req.items with
    | none => (db, .error .emptyItems)
    | some [] => (db, .error .emptyItems)
    | some itemsReq =>
      match validateSaleItems db userId itemsReq with
      | .error e => (db, .error e)
      | .ok saleItems =>
        match saveSale db.sales (mkSale req saleItems userId newSaleId) with
        | .error e => (db, .error e)
        | .ok (sales1, sale) =>
          match runCalls db.stocks (sale.items.map fun it =>
              (it.product,
                { type := "sale", quantity := it.quantity
                  notes := "Sale Invoice: " ++ sale.invoiceNumber
                  sourceDocument := some sale.id, sourceModel := some "Sale"
                  movedBy := userId })) with
          | .error e => (db, .error (.movement e))
          | .ok stocks1 => ({ db with sales := sales1, stocks := stocks1 }, .ok sale)

/-- `cancelSale` (`saleController.js`, first definition, lines 223–275):
load the sale scoped to the caller, record a `"return"` movement per
item, delete the sale — all in one transaction. -/
def cancelSale (db : DB) (saleId : Nat) (userId : Nat) :
    DB × Except SaleError Unit :=
  match db.sales.find? (fun s => s.id = saleId && s.createdBy = userId) with
  | none => (db, .error .saleNotFound)
  | some sale =>
    match runCalls db.stocks (sale.items.map fun it =>
        (it.product,
          { type := "return", quantity := it.quantity
            notes := "Cancellation for INV: " ++ sale.invoiceNumber
            sourceDocument := some sale.id, sourceModel := some "Sale"
            movedBy := userId })) with
    | .error e => (db, .error (.movement e))
    | .ok stocks1 =>
      ({ db with stocks := stocks1
                 sales := db.sales.filter (fun s => ¬ s.id = saleId) },
       .ok ())

/-! ### Purchase workflow (`src/controllers/purchaseController.js`) -/

/-- Error responses of the purchase controller. -/
inductive PurchaseError where
  | supplierRequired
  | invalidSupplier
  | emptyItems
  | itemFieldsMissing
  | invalidQuantity (productId : Nat)
  | invalidUnitCost (productId : Nat)
  | invalidProduct (productId : Nat)
  | duplicatePurchaseNumber
  | validationFailed
  | purchaseNotFound
  | alreadyCancelled
  | cannotCancelReceived
  | cannotUpdate (status : PurchaseStatus)
  | cannotReceive (status : PurchaseStatus)
  | movement (e : MovementError)
deriving Repr, DecidableEq

/-- The string the controller interpolates for a status. -/
def PurchaseStatus.str : PurchaseStatus → String
  | .ordered => "ordered"
  | .received => "received"
  | .cancelled => "cancelled"

/-- The user-facing message of each purchase-controller error response
(`errorResponse(res, message, ...)` strings). -/
def PurchaseError.message : PurchaseError → String
  | .supplierRequired => "Supplier is required."
  | .invalidSupplier => "Invalid or inactive supplier provided."
  | .emptyItems => "Purchase must include at least one item."
  | .itemFieldsMissing => "Each item must have a product, quantity, and unit cost."
  | .invalidQuantity pid => "Invalid quantity for product " ++ toString pid ++ "."
  | .invalidUnitCost pid => "Invalid unit cost for product " ++ toString pid ++ "."
  | .invalidProduct pid => "Invalid or inactive product: " ++ toString pid ++ "."
  | .duplicatePurchaseNumber => "Purchase number already exists."
  | .validationFailed => "Purchase validation failed."
  | .purchaseNotFound => "Purchase not found."
  | .alreadyCancelled => "Purchase has already been cancelled."
  | .cannotCancelReceived => "Cannot cancel a received purchase."
  | .cannotUpdate st => "Cannot update a purchase that is already " ++ st.str ++ "."
  | .cannotReceive st => "Cannot receive a purchase that is already " ++ st.str ++ "."
  | .movement _ => "Internal server error."

/-- One entry of `req.body.items` for a purchase. -/
structure PurchaseItemReq where
  product : Option Nat
  quantity : Option Int
  unitCost : Option Int
deriving Repr, DecidableEq

/-- The claim-relevant fields of a `POST /api/purchases/create` body;
the controller spreads the raw body into the document, so
`purchaseNumber` and `purchaseStatus` may come from the client. -/
structure PurchaseReq where
  purchaseNumber : Option String
  supplier : Option Nat
  items : Option (List PurchaseItemReq)
  purchaseStatus : Option PurchaseStatus
  paymentMethod : Option String
deriving Repr, DecidableEq

/-- Item loop of `createPurchase`: field presence (`!item.unitCost`
makes a zero cost "missing"), quantity/cost range checks, product
ownership/activity, computed `totalCost`. -/
def validatePurchaseItems (db : DB) (userId : Nat) :
    List PurchaseItemReq → Except PurchaseError (List PurchaseItem)
  | [] => .ok []
  | item :: rest =>
    match item.product, item.quantity, item.unitCost with
    | some pid, some q, some c =>
      if q = 0 || c = 0 then .error .itemFieldsMissing
      else if q ≤ 0 then .error (.invalidQuantity pid)
      else if c < 0 then .error (.invalidUnitCost pid)
      else
        let prodOk :=
          match db.products pid with
          | some prod => prod.createdBy = userId && prod.isActive
          | none => false
        if !prodOk then .error (.invalidProduct pid)
        else
          match validatePurchaseItems db userId rest with
          | .error e => .error e
          | .ok restItems =>
            .ok ({ product := pid, quantity := q, unitCost := c
                   totalCost := q * c } :: restItems)
    | _, _, _ => .error .itemFieldsMissing

/-- `new Purchase(purchaseData)`: raw body fields after schema setters
and defaults (`purchaseStatus` defaults to `ordered` only when the body
does not supply one). -/
def mkPurchase (req : PurchaseReq) (items : List PurchaseItem) (userId : Nat)
    (newId : Nat) : Purchase :=
  { id := newId
    purchaseNumber := applyStringSetters ((req.purchaseNumber).getD "")
    supplier := (req.supplier).getD 0
    items := items
    totalAmount := 0
    purchaseStatus := (req.purchaseStatus).getD .ordered
    paymentMethod := (req.paymentMethod).getD ""
    createdBy := userId }

/-- `purchase.save()`: pre-save hook, then mongoose validation
(`purchaseNumber` required, `paymentMethod` enum) and the unique index
on `purchaseNumber`.  The saved document replaces any previous version
of itself. -/
def savePurchase (purchases : List Purchase) (p : Purchase) :
    Except PurchaseError (List Purchase) :=
  let p1 := purchasePreSave p
  if ¬ purchaseValid p1 then .error .validationFailed
  else if ¬ (p1.paymentMethod = "cash" ∨ p1.paymentMethod = "online") then
    .error .validationFailed
  else if purchases.any (fun t => t.purchaseNumber = p1.purchaseNumber && ¬ t.id = p1.id) then
    .error .duplicatePurchaseNumber
  else .ok (purchases.filter (fun t => ¬ t.id = p1.id) ++ [p1])

/-- `createPurchase` (`purchaseController.js`, lines 10–104).  It runs no
transaction and performs a single document insert; it never reads or
writes the stock collection. -/
def createPurchase (db : DB) (req : PurchaseReq) (userId : Nat) (newId : Nat) :
    DB × Except PurchaseError Purchase :=
  match req.supplier with
  | none => (db, .error .supplierRequired)
  | some supplierId =>
    let supOk :=
      match db.suppliers supplierId with
      | some sup => sup.createdBy = userId && sup.isActive
      | none => false
    if !supOk then (db, .error .invalidSupplier)
    else
      match req.items with
      | none => (db, .error .emptyItems)
      | some [] => (db, .error .emptyItems)
      | some itemsReq =>
        match validatePurchaseItems db userId itemsReq with
        | .error e => (db, .error e)
        | .ok items =>
          -- explicit duplicate check when the body supplies a purchaseNumber
          let pn := (req.purchaseNumber).getD ""
          if ¬ pn = "" ∧ db.purchases.any (fun t => t.purchaseNumber = pn) = true then
            (db, .error .duplicatePurchaseNumber)
          else
            let purchase := mkPurchase req items userId newId
            match savePurchase db.purchases purchase with
            | .error e => (db, .error e)
            | .ok purchases1 =>
              ({ db with purchases := purchases1 }, .ok (purchasePreSave purchase))

/-- The updatable fields of a `PATCH .../update/:purchaseId` body — the
controller passes the raw body to `findByIdAndUpdate`, so it may carry
`purchaseStatus`. -/
structure PurchaseUpdate where
  purchaseNumber : Option String
  supplier : Option Nat
  items : Option (List PurchaseItemReq)
  purchaseStatus : Option PurchaseStatus
  paymentMethod : Option String
deriving Repr, DecidableEq

/-- Item loop of `updatePurchase`: only field presence and product
checks (no quantity/cost range checks in this controller). -/
def validateUpdateItems (db : DB) (userId : Nat) :
    List PurchaseItemReq → Except PurchaseError (List PurchaseItem)
  | [] => .ok []
  | item :: rest =>
    match item.product, item.quantity, item.unitCost with
    | some pid, some q, some c =>
      if q = 0 || c = 0 then .error .itemFieldsMissing
      else
        let prodOk :=
          match db.products pid with
          | some prod => prod.createdBy = userId && prod.isActive
          | none => false
        if !prodOk then .error (.invalidProduct pid)
        else
          match validateUpdateItems db userId rest with
          | .error e => .error e
          | .ok restItems =>
            .ok ({ product := pid, quantity := q, unitCost := c
                   totalCost := q * c } :: restItems)
    | _, _, _ => .error .itemFieldsMissing

/-- The duplicate-number guard of `updatePurchase`
(`updateData.purchaseNumber && updateData.purchaseNumber !== purchase.purchaseNumber`). -/
def updDupNumber (db : DB) (purchase : Purchase) (pn? : Option String) : Bool :=
  match pn? with
  | some pn =>
    ¬ pn = "" && ¬ pn = purchase.purchaseNumber &&
      db.purchases.any (fun t => t.purchaseNumber = pn)
  | none => false

/-- The supplier guard of `updatePurchase`: a supplier different from the
current one must exist, be active and be owned by the caller. -/
def updBadSupplier (db : DB) (purchase : Purchase) (userId : Nat) (sid? : Option Nat) : Bool :=
  match sid? with
  | some sid =>
    ¬ sid = purchase.supplier &&
      !(match db.suppliers sid with
        | some sup => sup.createdBy = userId && sup.isActive
        | none => false)
  | none => false

/-- `updatePurchase` (`purchaseController.js`, lines 203–311): blocked on
`received`/`cancelled` purchases, otherwise applies the raw update data —
including a client-supplied `purchaseStatus` — via `findByIdAndUpdate`
with `runValidators`. -/
def updatePurchase (db : DB) (purchaseId : Nat) (upd : PurchaseUpdate) (userId : Nat) :
    DB × Except PurchaseError Purchase :=
  match db.purchases.find? (fun p => p.id = purchaseId && p.createdBy = userId) with
  | none => (db, .error .purchaseNotFound)
  | some purchase =>
    if purchase.purchaseStatus = .received ∨ purchase.purchaseStatus = .cancelled then
      (db, .error (.cannotUpdate purchase.purchaseStatus))
    else if updDupNumber db purchase upd.purchaseNumber then
      (db, .error .duplicatePurchaseNumber)
    else if updBadSupplier db purchase userId upd.supplier then
      (db, .error .invalidSupplier)
    else
      match (match upd.items with
             | none => Except.ok none
             | some [] => Except.error PurchaseError.emptyItems
             | some l => (validateUpdateItems db userId l).map some) with
      | .error e => (db, .error e)
      | .ok newItems? =>
        let updated : Purchase :=
          { purchase with
            purchaseNumber :=
              match upd.purchaseNumber with
              | some pn => applyStringSetters pn
              | none => purchase.purchaseNumber
            supplier := (upd.supplier).getD purchase.supplier
            items := (newItems?).getD purchase.items
            totalAmount :=
              match newItems? with
              | some its => its.foldl (fun sum it => sum + it.totalCost) 0
              | none => purchase.totalAmount
            purchaseStatus := (upd.purchaseStatus).getD purchase.purchaseStatus
            paymentMethod := (upd.paymentMethod).getD purchase.paymentMethod }
        -- `runValidators: true` on the update
        if updated.purchaseNumber = "" then (db, .error .validationFailed)
        else if ¬ updated.items.all
            (fun it => 1 ≤ it.quantity && 0 ≤ it.unitCost && 0 ≤ it.totalCost) = true then
          (db, .error .validationFailed)
        else if ¬ (updated.paymentMethod = "cash" ∨ updated.paymentMethod = "online") then
          (db, .error .validationFailed)
        else
          ({ db with purchases := db.purchases.filter (fun t => ¬ t.id = purchase.id) ++ [updated] },
           .ok updated)

/-- `cancelPurchase` (`purchaseController.js`, lines 314–342): only an
`ordered` purchase can be cancelled; already-cancelled and
already-received purchases produce distinct messages. -/
def cancelPurchase (db : DB) (purchaseId : Nat) (userId : Nat) :
    DB × Except PurchaseError Unit :=
  match db.purchases.find? (fun p => p.id = purchaseId && p.createdBy = userId) with
  | none => (db, .error .purchaseNotFound)
  | some purchase =>
    if purchase.purchaseStatus = .cancelled then (db, .error .alreadyCancelled)
    else if purchase.purchaseStatus = .received then (db, .error .cannotCancelReceived)
    else
      match savePurchase db.purchases { purchase with purchaseStatus := .cancelled } with
      | .ok ps => ({ db with purchases := ps }, .ok ())
      | .error e => (db, .error e)

/-- `receivePurchase` (`purchaseController.js`, lines 345–409): requires
status `ordered`, records one `"purchase"` movement per item and flips
the status to `received`, all in one transaction (abort on any error). -/
def receivePurchase (db : DB) (purchaseId : Nat) (userId : Nat) :
    DB × Except PurchaseError Purchase :=
  match db.purchases.find? (fun p => p.id = purchaseId && p.createdBy = userId) with
  | none => (db, .error .purchaseNotFound)
  | some purchase =>
    if ¬ purchase.purchaseStatus = .ordered then
      (db, .error (.cannotReceive purchase.purchaseStatus))
    else
      match runCalls db.stocks (purchase.items.map fun it =>
          (it.product,
            { type := "purchase", quantity := it.quantity
              notes := "Receipt for PO: " ++ purchase.purchaseNumber
              sourceDocument := some purchase.id, sourceModel := some "Purchase"
              movedBy := userId })) with
      | .error e => (db, .error (.movement e))
      | .ok stocks1 =>
        let received := { purchase with purchaseStatus := PurchaseStatus.received }
        match savePurchase db.purchases received with
        | .error e => (db, .error e)
        | .ok purchases1 =>
          ({ db with stocks := stocks1, purchases := purchases1 },
           .ok (purchasePreSave received))

/-! ### Product creation (`src/controllers/productController.js`) -/

/-- The stock-ledger effect of `createProduct` (lines 71–87): a fresh
`Stock` document with `currentStock = initialStock` plus, when
`initialStock > 0`, one `"adjustment"` movement noting the initial
stock; saved in the same transaction as the product, with mongoose
validation (`min: 0` on `currentStock`) aborting on a negative value. -/
def createProduct (db : DB) (newProductId : Nat) (initialStock : Int) (userId : Nat) :
    DB × Except String Unit :=
  if initialStock < 0 then (db, .error "Current stock cannot be negative.")
  else
    let history : List MovementEntry :=
      if 0 < initialStock then
        [{ movementType := "adjustment", quantity := initialStock
           notes := "Initial stock upon product creation"
           sourceDocument := some newProductId, sourceModel := some "Product"
           movedBy := userId }]
      else []
    ({ db with
        products := fun q =>
          if q = newProductId then some { isActive := true, createdBy := userId }
          else db.products q
        stocks := db.stocks.set newProductId
          { currentStock := initialStock, movementHistory := history } },
     .ok ())

/-! ### Committed operation sequences -/

/-- One API operation of the system, with its request data. -/
inductive Op where
  | createProduct (newProductId : Nat) (initialStock : Int) (userId : Nat)
  | createSale (req : SaleReq) (userId : Nat) (newSaleId : Nat)
  | cancelSale (saleId : Nat) (userId : Nat)
  | createPurchase (req : PurchaseReq) (userId : Nat) (newId : Nat)
  | updatePurchase (purchaseId : Nat) (upd : PurchaseUpdate) (userId : Nat)
  | cancelPurchase (purchaseId : Nat) (userId : Nat)
  | receivePurchase (purchaseId : Nat) (userId : Nat)
  | recordMovement (productId : Nat) (type : String) (quantity : Int) (notes : String)
      (sourceDocument : Option Nat) (sourceModel : Option String) (movedBy : Nat)

/-- The committed effect of one operation: the new database when the
operation succeeds, the original database when it fails (each operation
either runs in a transaction that aborts on failure or performs no write
before failing). -/
def applyOp (db : DB) : Op → DB
  | .createProduct p i u => (createProduct db p i u).1
  | .createSale r u i => (createSale db r u i).1
  | .cancelSale s u => (cancelSale db s u).1
  | .createPurchase r u i => (createPurchase db r u i).1
  | .updatePurchase p upd u => (updatePurchase db p upd u).1
  | .cancelPurchase p u => (cancelPurchase db p u).1
  | .receivePurchase p u => (receivePurchase db p u).1
  | .recordMovement p t q n sd sm u =>
    match recordMovementTx db.stocks p t q n sd sm u with
    | .ok (st1, _) => { db with stocks := st1 }
    | .error _ => db

/-- The database after a sequence of committed operations, starting from
the empty store. -/
def runOps (ops : List Op) : DB := ops.foldl applyOp DB.empty

/-! ### Lemmas about the stock store -/

/-- All stock counters are non-negative (a missing record counts as 0). -/
def storeNonneg (st : StockStore) : Prop := ∀ p, 0 ≤ currentStockOf st p

theorem set_self (st : StockStore) (p : Nat) (r : StockRecord) :
    (st.set p r) p = some r := by
  simp [StockStore.set]

theorem set_other (st : StockStore) {p q : Nat} (r : StockRecord) (h : ¬ q = p) :
    (st.set p r) q = st q := by
  simp [StockStore.set, h]

theorem currentStockOf_set_self (st : StockStore) (p : Nat) (r : StockRecord) :
    currentStockOf (st.set p r) p = r.currentStock := by
  simp [currentStockOf, set_self]

theorem currentStockOf_set_other (st : StockStore) {p q : Nat} (r : StockRecord)
    (h : ¬ q = p) : currentStockOf (st.set p r) q = currentStockOf st q := by
  simp [currentStockOf, set_other st r h]

theorem historyOf_set_self (st : StockStore) (p : Nat) (r : StockRecord) :
    historyOf (st.set p r) p = r.movementHistory := by
  simp [historyOf, set_self]

theorem historyOf_set_other (st : StockStore) {p q : Nat} (r : StockRecord)
    (h : ¬ q = p) : historyOf (st.set p r) q = historyOf st q := by
  simp [historyOf, set_other st r h]

theorem getD_currentStock (st : StockStore) (p : Nat) :
    ((st p).getD { currentStock := 0, movementHistory := [] }).currentStock
      = currentStockOf st p := by
  unfold currentStockOf; cases st p <;> rfl

theorem getD_history (st : StockStore) (p : Nat) :
    ((st p).getD { currentStock := 0, movementHistory := [] }).movementHistory
      = historyOf st p := by
  unfold historyOf; cases st p <;> rfl

/-- The movement entry `recordMovement` pushes. -/
def mkEntry (t : String) (q : Int) (n : String) (sd : Option Nat)
    (sm : Option String) (u : Nat) : MovementEntry :=
  { movementType := t, quantity := q, notes := n
    sourceDocument := sd, sourceModel := sm, movedBy := u }

/-- The record written by the `$inc`/`$push` update. -/
def movedRecord (st : StockStore) (p : Nat) (delta : Int) (e : MovementEntry) :
    StockRecord :=
  { currentStock := currentStockOf st p + delta
    movementHistory := historyOf st p ++ [e] }

/-- Closed form of `recordMovement` for type `"sale"` and a positive
quantity. -/
theorem recordMovement_sale_eq (st : StockStore) (p : Nat) (q : Int) (n : String)
    (sd : Option Nat) (sm : Option String) (u : Nat) (hq : 0 < q) :
    recordMovement st p "sale" q n sd sm u =
      (st.set p (movedRecord st p (-q) (mkEntry "sale" q n sd sm u)),
       if (movedRecord st p (-q) (mkEntry "sale" q n sd sm u)).currentStock < 0 then
         .error (.insufficientStock p
           (movedRecord st p (-q) (mkEntry "sale" q n sd sm u)).currentStock q)
       else .ok (movedRecord st p (-q) (mkEntry "sale" q n sd sm u))) := by
  have hq' : ¬ q ≤ 0 := not_le.mpr hq
  unfold recordMovement findOneAndUpdateStock movedRecord mkEntry
  simp only [hq', if_false, if_true, getD_currentStock, getD_history, reduceIte]
  split <;> rfl

/-- Closed form of `recordMovement` for an increase type and a positive
quantity. -/
theorem recordMovement_inc_eq (st : StockStore) (p : Nat) (t : String) (q : Int)
    (n : String) (sd : Option Nat) (sm : Option String) (u : Nat)
    (hq : 0 < q) (ht : isIncreaseType t = true) :
    recordMovement st p t q n sd sm u =
      (st.set p (movedRecord st p q (mkEntry t q n sd sm u)),
       if (movedRecord st p q (mkEntry t q n sd sm u)).currentStock < 0 then
         .error (.insufficientStock p
           (movedRecord st p q (mkEntry t q n sd sm u)).currentStock q)
       else .ok (movedRecord st p q (mkEntry t q n sd sm u))) := by
  have hq' : ¬ q ≤ 0 := not_le.mpr hq
  have hs : ¬ t = "sale" := by
    rintro rfl; simp [isIncreaseType] at ht
  unfold recordMovement findOneAndUpdateStock movedRecord mkEntry
  simp only [hq', hs, ht, if_false, if_true, getD_currentStock, getD_history, reduceIte]
  split <;> rfl

/-- Forward characterization of a successful transactional
`recordMovement` call: the quantity was positive, the type valid, the
returned record is the old one with the signed delta applied and one
entry appended, its counter passed the non-negativity check, and the
committed store overwrites exactly that one record. -/
theorem recordMovementTx_ok_elim {st : StockStore} {p : Nat} {t : String} {q : Int}
    {n : String} {sd : Option Nat} {sm : Option String} {u : Nat}
    {st1 : StockStore} {r : StockRecord}
    (h : recordMovementTx st p t q n sd sm u = .ok (st1, r)) :
    0 < q ∧ (t = "sale" ∨ isIncreaseType t = true) ∧
    r = movedRecord st p (if t = "sale" then -q else q) (mkEntry t q n sd sm u) ∧
    0 ≤ r.currentStock ∧ st1 = st.set p r := by
  by_cases hq : q ≤ 0
  · exfalso
    unfold recordMovementTx recordMovement at h
    simp [hq] at h
  · have hq' : 0 < q := not_le.mp hq
    by_cases hs : t = "sale"
    · subst hs
      unfold recordMovementTx at h
      rw [recordMovement_sale_eq st p q n sd sm u hq'] at h
      by_cases hneg : (movedRecord st p (-q) (mkEntry "sale" q n sd sm u)).currentStock < 0
      · simp [hneg] at h
      · simp only [hneg, if_false] at h
        obtain ⟨hst, hr⟩ := by
          simpa using h
        refine ⟨hq', Or.inl rfl, ?_, ?_, ?_⟩
        · simp [← hr]
        · rw [← hr]; exact not_lt.mp hneg
        · rw [← hst, ← hr]
    · by_cases ht : isIncreaseType t = true
      · unfold recordMovementTx at h
        rw [recordMovement_inc_eq st p t q n sd sm u hq' ht] at h
        by_cases hneg : (movedRecord st p q (mkEntry t q n sd sm u)).currentStock < 0
        · simp [hneg] at h
        · simp only [hneg, if_false] at h
          obtain ⟨hst, hr⟩ := by
            simpa using h
          refine ⟨hq', Or.inr ht, ?_, ?_, ?_⟩
          · simp [hs, ← hr]
          · rw [← hr]; exact not_lt.mp hneg
          · rw [← hst, ← hr]
      · exfalso
        unfold recordMovementTx recordMovement at h
        simp [hq, hs, ht] at h

/-- The signed stock delta of a movement call. -/
def signedOf (c : MovementCall) : Int :=
  if c.type = "sale" then -c.quantity else c.quantity

/-- Net signed delta a call list applies to product `p`. -/
def sumSigned (p : Nat) (l : List (Nat × MovementCall)) : Int :=
  ((l.filter (fun pc => pc.1 = p)).map (fun pc => signedOf pc.2)).sum

/-- The entries a call list appends to the history of product `p`. -/
def entriesFor (p : Nat) (l : List (Nat × MovementCall)) : List MovementEntry :=
  (l.filter (fun pc => pc.1 = p)).map (fun pc => entryOf pc.2)

theorem entryOf_eq_mkEntry (c : MovementCall) :
    entryOf c = mkEntry c.type c.quantity c.notes c.sourceDocument c.sourceModel c.movedBy := rfl

theorem sumSigned_cons (p p0 : Nat) (c : MovementCall) (rest : List (Nat × MovementCall)) :
    sumSigned p ((p0, c) :: rest) =
      (if p0 = p then signedOf c else 0) + sumSigned p rest := by
  by_cases hp : p0 = p <;> simp [sumSigned, hp]

theorem entriesFor_cons (p p0 : Nat) (c : MovementCall) (rest : List (Nat × MovementCall)) :
    entriesFor p ((p0, c) :: rest) =
      (if p0 = p then [entryOf c] else []) ++ entriesFor p rest := by
  by_cases hp : p0 = p <;> simp [entriesFor, hp]

/-- Per-product effect of a successful in-transaction movement loop: each
product's counter moves by the net signed delta of the calls addressed to
it, and its history gains exactly the corresponding entries, in order. -/
theorem runCalls_ok_stock {l : List (Nat × MovementCall)} :
    ∀ {st st' : StockStore}, runCalls st l = .ok st' → ∀ p : Nat,
      currentStockOf st' p = currentStockOf st p + sumSigned p l ∧
      historyOf st' p = historyOf st p ++ entriesFor p l := by
  induction l with
  | nil =>
    intro st st' h p
    simp only [runCalls, Except.ok.injEq] at h
    subst h
    simp [sumSigned, entriesFor]
  | cons pc rest ih =>
    intro st st' h p
    obtain ⟨p0, c⟩ := pc
    unfold runCalls at h
    cases htx : recordMovementTx st p0 c.type c.quantity c.notes c.sourceDocument
        c.sourceModel c.movedBy with
    | error e => rw [htx] at h; simp at h
    | ok pr =>
      obtain ⟨st1, r⟩ := pr
      rw [htx] at h
      simp only [] at h
      obtain ⟨hq, hty, hr, hnn, hst1⟩ := recordMovementTx_ok_elim htx
      obtain ⟨hcur, hhist⟩ := ih h p
      rw [sumSigned_cons, entriesFor_cons]
      by_cases hp : p0 = p
      · subst hp
        constructor
        · rw [hcur, hst1, currentStockOf_set_self, hr]
          by_cases hcs : c.type = "sale" <;>
            · simp [movedRecord, signedOf, hcs]
              try ring
        · rw [hhist, hst1, historyOf_set_self, hr]
          simp only [movedRecord, entryOf_eq_mkEntry]
          simp [List.append_assoc]
      · constructor
        · rw [hcur, hst1, currentStockOf_set_other st r (fun hpp => hp hpp.symm)]
          simp [hp]
        · rw [hhist, hst1, historyOf_set_other st r (fun hpp => hp hpp.symm)]
          simp [hp]

/-- A successful in-transaction movement loop keeps every counter
non-negative. -/
theorem runCalls_ok_nonneg {l : List (Nat × MovementCall)} :
    ∀ {st st' : StockStore}, runCalls st l = .ok st' → storeNonneg st → storeNonneg st' := by
  induction l with
  | nil =>
    intro st st' h hnn
    simp only [runCalls, Except.ok.injEq] at h
    subst h; exact hnn
  | cons pc rest ih =>
    intro st st' h hnn
    obtain ⟨p0, c⟩ := pc
    unfold runCalls at h
    cases htx : recordMovementTx st p0 c.type c.quantity c.notes c.sourceDocument
        c.sourceModel c.movedBy with
    | error e => rw [htx] at h; simp at h
    | ok pr =>
      obtain ⟨st1, r⟩ := pr
      rw [htx] at h
      simp only [] at h
      obtain ⟨hq, hty, hr, hrnn, hst1⟩ := recordMovementTx_ok_elim htx
      refine ih h ?_
      intro p
      by_cases hp : p = p0
      · subst hp
        rw [hst1, currentStockOf_set_self]
        exact hrnn
      · rw [hst1, currentStockOf_set_other st r hp]
        exact hnn p

/-- Constructor form of a successful transactional `recordMovement`. -/
theorem recordMovementTx_ok_intro (st : StockStore) (p : Nat) (t : String) (q : Int)
    (n : String) (sd : Option Nat) (sm : Option String) (u : Nat)
    (hq : 0 < q) (hty : t = "sale" ∨ isIncreaseType t = true)
    (hnn : 0 ≤ currentStockOf st p + (if t = "sale" then -q else q)) :
    recordMovementTx st p t q n sd sm u =
      .ok (st.set p (movedRecord st p (if t = "sale" then -q else q) (mkEntry t q n sd sm u)),
           movedRecord st p (if t = "sale" then -q else q) (mkEntry t q n sd sm u)) := by
  by_cases hs : t = "sale"
  · subst hs
    unfold recordMovementTx
    rw [recordMovement_sale_eq st p q n sd sm u hq]
    simp only [if_pos rfl, reduceIte] at hnn ⊢
    rw [if_neg (by simpa [movedRecord] using not_lt.mpr hnn)]
  · have ht : isIncreaseType t = true := by
      cases hty with
      | inl h => exact absurd h hs
      | inr h => exact h
    unfold recordMovementTx
    rw [recordMovement_inc_eq st p t q n sd sm u hq ht]
    simp only [hs, if_false, reduceIte] at hnn ⊢
    rw [if_neg (by simpa [movedRecord] using not_lt.mpr hnn)]

/-- A movement loop whose calls all carry an increase type and a positive
quantity always succeeds on a non-negative store. -/
theorem runCalls_inc_ok {l : List (Nat × MovementCall)} :
    ∀ {st : StockStore}, (∀ pc ∈ l, isIncreaseType pc.2.type = true ∧ 0 < pc.2.quantity) →
      storeNonneg st → ∃ st', runCalls st l = .ok st' := by
  induction l with
  | nil => intro st _ _; exact ⟨st, rfl⟩
  | cons pc rest ih =>
    intro st hl hnn
    obtain ⟨p0, c⟩ := pc
    obtain ⟨hty0, hq0⟩ := hl (p0, c) (by simp)
    have hty : isIncreaseType c.type = true := hty0
    have hq : 0 < c.quantity := hq0
    have hs : ¬ c.type = "sale" := by
      rintro hc; rw [hc] at hty; simp [isIncreaseType] at hty
    have hok := recordMovementTx_ok_intro st p0 c.type c.quantity c.notes
      c.sourceDocument c.sourceModel c.movedBy hq (Or.inr hty)
      (by rw [if_neg hs]; have h1 := hnn p0; omega)
    set r := movedRecord st p0 (if c.type = "sale" then -c.quantity else c.quantity)
      (mkEntry c.type c.quantity c.notes c.sourceDocument c.sourceModel c.movedBy) with hrdef
    have hnn1 : storeNonneg (st.set p0 r) := by
      intro p
      by_cases hp : p = p0
      · rw [hp, currentStockOf_set_self]
        simp only [hrdef, movedRecord, if_neg hs]
        have h2 := hnn p0; omega
      · rw [currentStockOf_set_other st r hp]
        exact hnn p
    obtain ⟨st', hst'⟩ := ih (fun pc hpc => hl pc (by simp [hpc])) hnn1
    refine ⟨st', ?_⟩
    unfold runCalls
    rw [hok]
    exact hst'

/-- A successful movement loop implies every call had a positive quantity
and a valid type. -/
theorem runCalls_ok_calls {l : List (Nat × MovementCall)} :
    ∀ {st st' : StockStore}, runCalls st l = .ok st' →
      ∀ pc ∈ l, 0 < pc.2.quantity ∧ (pc.2.type = "sale" ∨ isIncreaseType pc.2.type = true) := by
  induction l with
  | nil => intro st st' _ pc hpc; simp at hpc
  | cons pc0 rest ih =>
    intro st st' h pc hpc
    obtain ⟨p0, c⟩ := pc0
    unfold runCalls at h
    cases htx : recordMovementTx st p0 c.type c.quantity c.notes c.sourceDocument
        c.sourceModel c.movedBy with
    | error e => rw [htx] at h; simp at h
    | ok pr =>
      obtain ⟨st1, r⟩ := pr
      rw [htx] at h
      simp only [] at h
      obtain ⟨hq, hty, -, -, -⟩ := recordMovementTx_ok_elim htx
      rcases List.mem_cons.mp hpc with hpc0 | hpcr
      · subst hpc0; exact ⟨hq, hty⟩
      · exact ih h pc hpcr

/-- Splitting the signed sum of a list of valid calls into the increase
part minus the sale part. -/
theorem sum_signed_split (calls : List MovementCall)
    (hl : ∀ c ∈ calls, c.type = "sale" ∨ isIncreaseType c.type = true) :
    (calls.map signedOf).sum =
      ((calls.filter (fun c => isIncreaseType c.type)).map (fun c => c.quantity)).sum
      - ((calls.filter (fun c => c.type = "sale")).map (fun c => c.quantity)).sum := by
  induction calls with
  | nil => simp
  | cons c rest ih =>
    have hrest := ih (fun d hd => hl d (by simp [hd]))
    rcases hl c (by simp) with hs | hi
    · have hni : isIncreaseType "sale" = false := by decide
      simp [List.filter_cons, hs, hni, signedOf, hrest]
      ring
    · have hns : ¬ c.type = "sale" := by
        rintro hc; rw [hc] at hi; simp [isIncreaseType] at hi
      simp [List.filter_cons, hi, hns, signedOf, hrest]
      ring

theorem sumSigned_map_const (p : Nat) (calls : List MovementCall) :
    sumSigned p (calls.map fun c => (p, c)) = (calls.map signedOf).sum := by
  induction calls with
  | nil => simp [sumSigned]
  | cons c rest ih => simp [List.map_cons, sumSigned_cons, ih]

theorem entriesFor_map_const (p : Nat) (calls : List MovementCall) :
    entriesFor p (calls.map fun c => (p, c)) = calls.map entryOf := by
  induction calls with
  | nil => simp [entriesFor]
  | cons c rest ih => simp [List.map_cons, entriesFor_cons, ih]

/-- **C3** — conservation: for every stock record and every sequence of
successful `recordMovement` calls on it, the final `currentStock` equals
the initial stock plus the sum of the committed purchase/adjustment/return
quantities minus the sum of the committed sale quantities; the history
gains exactly one entry per call, storing the positive original quantity
with the sign implied only by the movement type. -/
theorem conservation_of_stock (p : Nat) (st st' : StockStore) (calls : List MovementCall)
    (h : runCalls st (calls.map fun c => (p, c)) = .ok st') :
    currentStockOf st' p = currentStockOf st p
      + ((calls.filter (fun c => isIncreaseType c.type)).map (fun c => c.quantity)).sum
      - ((calls.filter (fun c => c.type = "sale")).map (fun c => c.quantity)).sum
    ∧ historyOf st' p = historyOf st p ++ calls.map entryOf
    ∧ ∀ c ∈ calls, 0 < (entryOf c).quantity ∧ (entryOf c).movementType = c.type := by
  obtain ⟨hcur, hhist⟩ := runCalls_ok_stock h p
  have hvalid := runCalls_ok_calls h
  refine ⟨?_, ?_, ?_⟩
  · rw [hcur, sumSigned_map_const,
      sum_signed_split calls (fun c hc => (hvalid (p, c) (List.mem_map_of_mem _ hc)).2)]
    ring
  · rw [hhist, entriesFor_map_const]
  · intro c hc
    exact ⟨(hvalid (p, c) (List.mem_map_of_mem _ hc)).1, rfl⟩

/-- Witness store for the ledger theorems: product 1 holds 5 units. -/
def saleStore5 : StockStore :=
  StockStore.empty.set 1 { currentStock := 5, movementHistory := [] }

/-- Witness call list for the conservation theorem. -/
def conservationCalls : List MovementCall :=
  [{ type := "purchase", quantity := 7, notes := "", sourceDocument := none
     sourceModel := none, movedBy := 3 },
   { type := "sale", quantity := 4, notes := "", sourceDocument := none
     sourceModel := none, movedBy := 3 }]

theorem conservation_of_stock_witness :
    runCalls saleStore5 (conservationCalls.map fun c => (1, c)) =
      .ok (saleStore5.set 1
        { currentStock := 12
          movementHistory := [entryOf (conservationCalls.get ⟨0, by decide⟩)] }
        |>.set 1
        { currentStock := 8
          movementHistory := [entryOf (conservationCalls.get ⟨0, by decide⟩),
                              entryOf (conservationCalls.get ⟨1, by decide⟩)] }) ∧
    currentStockOf (saleStore5.set 1
        { currentStock := 12
          movementHistory := [entryOf (conservationCalls.get ⟨0, by decide⟩)] }
        |>.set 1
        { currentStock := 8
          movementHistory := [entryOf (conservationCalls.get ⟨0, by decide⟩),
                              entryOf (conservationCalls.get ⟨1, by decide⟩)] }) 1 =
      currentStockOf saleStore5 1
        + ((conservationCalls.filter (fun c => isIncreaseType c.type)).map
            (fun c => c.quantity)).sum
        - ((conservationCalls.filter (fun c => c.type = "sale")).map
            (fun c => c.quantity)).sum := by
  constructor
  · rfl
  · exact (conservation_of_stock 1 saleStore5 _ conservationCalls rfl).1

/-- **C1 (amended)** — when the applied delta would drive `currentStock`
negative, `recordMovement` fails with `InsufficientStock`; in a
transactional context the enclosing transaction aborts so nothing is
persisted, but in a non-transactional context the decrement REMAINS
applied: the persisted counter equals the old value minus the quantity
(no compensation happens before the error is returned). -/
theorem recordMovement_insufficient (st : StockStore) (p : Nat) (q : Int) (n : String)
    (sd : Option Nat) (sm : Option String) (u : Nat)
    (hq : 0 < q) (hlt : currentStockOf st p < q) :
    recordMovementTx st p "sale" q n sd sm u =
      .error (.insufficientStock p (currentStockOf st p + -q) q) ∧
    (recordMovement st p "sale" q n sd sm u).2 =
      .error (.insufficientStock p (currentStockOf st p + -q) q) ∧
    currentStockOf (recordMovement st p "sale" q n sd sm u).1 p =
      currentStockOf st p + -q := by
  have hneg : (movedRecord st p (-q) (mkEntry "sale" q n sd sm u)).currentStock < 0 := by
    simp only [movedRecord]; omega
  refine ⟨?_, ?_, ?_⟩
  · unfold recordMovementTx
    rw [recordMovement_sale_eq st p q n sd sm u hq]
    simp [hneg, movedRecord, hlt]
  · rw [recordMovement_sale_eq st p q n sd sm u hq]
    simp [hneg, movedRecord, hlt]
  · rw [recordMovement_sale_eq st p q n sd sm u hq]
    simp [currentStockOf_set_self, movedRecord]

theorem recordMovement_insufficient_witness :
    (0 : Int) < 10 ∧ currentStockOf saleStore5 1 < 10 ∧
    recordMovementTx saleStore5 1 "sale" 10 "" none none 7 =
      .error (.insufficientStock 1 (currentStockOf saleStore5 1 + -10) 10) :=
  ⟨by decide, by decide,
   (recordMovement_insufficient saleStore5 1 10 "" none none 7 (by decide) (by decide)).1⟩

/-- **C1 (counterexample)** — the claim "in a non-transactional context
the increment is compensated before the error is returned, so the
persisted `currentStock` is the same as before the call" is false: with 5
units on hand, a non-transactional sale of 10 throws `InsufficientStock`
but leaves the persisted counter at `-5`, not `5`. -/
theorem recordMovement_no_compensation :
    (recordMovement saleStore5 1 "sale" 10 "" none none 7).2 =
      .error (.insufficientStock 1 (-5) 10) ∧
    currentStockOf (recordMovement saleStore5 1 "sale" 10 "" none none 7).1 1 = -5 ∧
    ¬ currentStockOf (recordMovement saleStore5 1 "sale" 10 "" none none 7).1 1 =
        currentStockOf saleStore5 1 := by
  refine ⟨rfl, by decide, by decide⟩

/-- **C7** — contrary to the claim (and to the dead `!updatedStock` check
in the source), a `recordMovement` call for a product with NO stock
record does not fail with `StockRecordNotFound`: because the update runs
with `upsert: true`, it silently creates a fresh record holding the
movement's delta and one ledger row. -/
theorem recordMovement_upserts_missing_record (st : StockStore) (p : Nat) (q : Int)
    (n : String) (sd : Option Nat) (sm : Option String) (u : Nat)
    (hmiss : st p = none) (hq : 0 < q) :
    (recordMovement st p "purchase" q n sd sm u).2 =
      .ok { currentStock := q, movementHistory := [mkEntry "purchase" q n sd sm u] } ∧
    (recordMovement st p "purchase" q n sd sm u).1 p =
      some { currentStock := q, movementHistory := [mkEntry "purchase" q n sd sm u] } := by
  have hcur : currentStockOf st p = 0 := by simp [currentStockOf, hmiss]
  have hhist : historyOf st p = [] := by simp [historyOf, hmiss]
  have hq0 : ¬ q < 0 := by omega
  rw [recordMovement_inc_eq st p "purchase" q n sd sm u hq (by decide)]
  constructor
  · simp [movedRecord, hcur, hhist, hq0]
  · simp [set_self, movedRecord, hcur, hhist]

theorem recordMovement_upserts_missing_record_witness :
    StockStore.empty 7 = none ∧ (0 : Int) < 5 ∧
    (recordMovement StockStore.empty 7 "purchase" 5 "x" none none 3).2 =
      .ok { currentStock := 5, movementHistory := [mkEntry "purchase" 5 "x" none none 3] } :=
  ⟨rfl, by decide,
   (recordMovement_upserts_missing_record StockStore.empty 7 5 "x" none none 3 rfl (by decide)).1⟩

/-! ### Atomicity and frame lemmas for the workflows -/

/-- **C4** — `createSale` is all-or-nothing: every failure (field
validation, inactive product, pre-check or in-transaction
`InsufficientStock`, duplicate invoice, any item index) aborts the
transaction, so the persisted database is exactly the original one — no
item's stock changed and no sale document with the new id exists. -/
theorem createSale_atomic (db : DB) (req : SaleReq) (userId newSaleId : Nat) (e : SaleError)
    (h : (createSale db req userId newSaleId).2 = .error e) :
    (createSale db req userId newSaleId).1 = db ∧
    (∀ p, currentStockOf (createSale db req userId newSaleId).1.stocks p
        = currentStockOf db.stocks p) ∧
    ((∀ s ∈ db.sales, ¬ s.id = newSaleId) →
      ∀ s ∈ (createSale db req userId newSaleId).1.sales, ¬ s.id = newSaleId) := by
  have hdb : (createSale db req userId newSaleId).1 = db := by
    rcases hcs : createSale db req userId newSaleId with ⟨db1, res⟩
    rw [hcs] at h
    simp only [] at h ⊢
    unfold createSale at hcs
    repeat' first
      | split at hcs
      | simp only [] at hcs
    all_goals injection hcs with h1 h2
    all_goals first
      | exact h1.symm
      | (rw [← h2] at h; simp at h)
  refine ⟨hdb, ?_, ?_⟩
  · intro p; rw [hdb]
  · intro hfresh s hs
    rw [hdb] at hs
    exact hfresh s hs

/-- `createPurchase` never reads a stock record for mutation nor writes
one: the stock collection is returned untouched on every path. -/
theorem createPurchase_stocks_eq (db : DB) (req : PurchaseReq) (userId newId : Nat) :
    (createPurchase db req userId newId).1.stocks = db.stocks := by
  rcases hcs : createPurchase db req userId newId with ⟨db1, res⟩
  simp only []
  unfold createPurchase at hcs
  repeat' first
    | split at hcs
    | simp only [] at hcs
  all_goals injection hcs with h1 h2
  all_goals rw [← h1]

/-- `updatePurchase` never touches the stock collection. -/
theorem updatePurchase_stocks_eq (db : DB) (purchaseId : Nat) (upd : PurchaseUpdate)
    (userId : Nat) : (updatePurchase db purchaseId upd userId).1.stocks = db.stocks := by
  rcases hcs : updatePurchase db purchaseId upd userId with ⟨db1, res⟩
  simp only []
  unfold updatePurchase at hcs
  repeat' first
    | split at hcs
    | simp only [] at hcs
  all_goals injection hcs with h1 h2
  all_goals rw [← h1]

/-- `cancelPurchase` never touches the stock collection. -/
theorem cancelPurchase_stocks_eq (db : DB) (purchaseId userId : Nat) :
    (cancelPurchase db purchaseId userId).1.stocks = db.stocks := by
  rcases hcs : cancelPurchase db purchaseId userId with ⟨db1, res⟩
  simp only []
  unfold cancelPurchase at hcs
  repeat' first
    | split at hcs
    | simp only [] at hcs
  all_goals injection hcs with h1 h2
  all_goals rw [← h1]

/-- `createSale` preserves non-negativity of all stock counters. -/
theorem createSale_stocks_nonneg (db : DB) (req : SaleReq) (userId newSaleId : Nat)
    (h : storeNonneg db.stocks) :
    storeNonneg (createSale db req userId newSaleId).1.stocks := by
  rcases hcs : createSale db req userId newSaleId with ⟨db1, res⟩
  simp only []
  unfold createSale at hcs
  repeat' first
    | split at hcs
    | simp only [] at hcs
  all_goals injection hcs with h1 h2
  all_goals rw [← h1]
  all_goals try exact h
  exact runCalls_ok_nonneg (by assumption) h

/-- `cancelSale` preserves non-negativity of all stock counters. -/
theorem cancelSale_stocks_nonneg (db : DB) (saleId userId : Nat)
    (h : storeNonneg db.stocks) :
    storeNonneg (cancelSale db saleId userId).1.stocks := by
  rcases hcs : cancelSale db saleId userId with ⟨db1, res⟩
  simp only []
  unfold cancelSale at hcs
  repeat' first
    | split at hcs
    | simp only [] at hcs
  all_goals injection hcs with h1 h2
  all_goals rw [← h1]
  all_goals try exact h
  exact runCalls_ok_nonneg (by assumption) h

/-- `receivePurchase` preserves non-negativity of all stock counters. -/
theorem receivePurchase_stocks_nonneg (db : DB) (purchaseId userId : Nat)
    (h : storeNonneg db.stocks) :
    storeNonneg (receivePurchase db purchaseId userId).1.stocks := by
  rcases hcs : receivePurchase db purchaseId userId with ⟨db1, res⟩
  simp only []
  unfold receivePurchase at hcs
  repeat' first
    | split at hcs
    | simp only [] at hcs
  all_goals injection hcs with h1 h2
  all_goals rw [← h1]
  all_goals try exact h
  exact runCalls_ok_nonneg (by assumption) h

/-- `createProduct` preserves non-negativity: the new record's counter is
the validated (non-negative) initial stock. -/
theorem createProduct_stocks_nonneg (db : DB) (pid : Nat) (init : Int) (u : Nat)
    (h : storeNonneg db.stocks) :
    storeNonneg (createProduct db pid init u).1.stocks := by
  unfold createProduct
  by_cases hi : init < 0
  · rw [if_pos hi]; exact h
  · rw [if_neg hi]
    simp only []
    intro p
    by_cases hp : p = pid
    · rw [hp, currentStockOf_set_self]
      exact not_lt.mp hi
    · rw [currentStockOf_set_other _ _ hp]
      exact h p

/-- Every committed operation preserves non-negativity of all counters. -/
theorem applyOp_stocks_nonneg (db : DB) (op : Op) (h : storeNonneg db.stocks) :
    storeNonneg (applyOp db op).stocks := by
  cases op with
  | createProduct pid init u => exact createProduct_stocks_nonneg db pid init u h
  | createSale r u i => exact createSale_stocks_nonneg db r u i h
  | cancelSale s u => exact cancelSale_stocks_nonneg db s u h
  | createPurchase r u i =>
    show storeNonneg (createPurchase db r u i).1.stocks
    rw [createPurchase_stocks_eq]; exact h
  | updatePurchase p upd u =>
    show storeNonneg (updatePurchase db p upd u).1.stocks
    rw [updatePurchase_stocks_eq]; exact h
  | cancelPurchase p u =>
    show storeNonneg (cancelPurchase db p u).1.stocks
    rw [cancelPurchase_stocks_eq]; exact h
  | receivePurchase p u => exact receivePurchase_stocks_nonneg db p u h
  | recordMovement p t q n sd sm u =>
    simp only [applyOp]
    cases htx : recordMovementTx db.stocks p t q n sd sm u with
    | error e => exact h
    | ok pr =>
      obtain ⟨st1, r⟩ := pr
      obtain ⟨-, -, -, hrnn, hst1⟩ := recordMovementTx_ok_elim htx
      intro pp
      show 0 ≤ currentStockOf st1 pp
      by_cases hp : pp = p
      · rw [hp, hst1, currentStockOf_set_self]; exact hrnn
      · rw [hst1, currentStockOf_set_other _ _ hp]; exact h pp

/-- **C2** — after any sequence of committed operations starting from the
empty store, every product's persisted `currentStock` is non-negative. -/
theorem currentStock_nonneg (ops : List Op) :
    ∀ p r, (runOps ops).stocks p = some r → 0 ≤ r.currentStock := by
  have key : ∀ (l : List Op) (db : DB), storeNonneg db.stocks →
      storeNonneg ((l.foldl applyOp db).stocks) := by
    intro l
    induction l with
    | nil => intro db h; exact h
    | cons op rest ih =>
      intro db h
      exact ih _ (applyOp_stocks_nonneg db op h)
  intro p r hr
  have hempty : storeNonneg DB.empty.stocks := by
    intro pp
    show (0 : Int) ≤ currentStockOf StockStore.empty pp
    simp [currentStockOf, StockStore.empty]
  have h3 : storeNonneg (runOps ops).stocks := key ops DB.empty hempty
  have h4 := h3 p
  unfold currentStockOf at h4
  rw [hr] at h4
  exact h4

theorem currentStock_nonneg_witness :
    (runOps [Op.createProduct 1 5 2]).stocks 1 =
      some { currentStock := 5
             movementHistory := [{ movementType := "adjustment", quantity := 5
                                   notes := "Initial stock upon product creation"
                                   sourceDocument := some 1, sourceModel := some "Product"
                                   movedBy := 2 }] } ∧
    (0 : Int) ≤ (5 : Int) :=
  ⟨rfl, currentStock_nonneg [Op.createProduct 1 5 2] 1 _ rfl⟩

/-! ### Sale-workflow fixtures and eliminations -/

/-- Witness database: one active product (id 1, owner 2) with 5 units on
hand, no sales, no purchases. -/
def saleDB : DB :=
  { products := fun p => if p = 1 then some { isActive := true, createdBy := 2 } else none
    suppliers := fun _ => none
    stocks := saleStore5
    sales := []
    purchases := [] }

/-- A sale request that passes the optimistic pre-check on both items
(3 ≤ 5 and 4 ≤ 5) but fails the atomic decrement on the second item
(5 − 3 − 4 < 0). -/
def failReq : SaleReq :=
  { invoiceNumber := none
    items := some [{ product := some 1, quantity := some 3, unitPrice := some 4 },
                   { product := some 1, quantity := some 4, unitPrice := some 2 }]
    paymentMethod := some "cash" }

theorem createSale_atomic_witness :
    (createSale saleDB failReq 2 10).2 =
      .error (.movement (.insufficientStock 1 (-2) 4)) ∧
    (createSale saleDB failReq 2 10).1 = saleDB :=
  ⟨by rfl,
   (createSale_atomic saleDB failReq 2 10 (.movement (.insufficientStock 1 (-2) 4))
     (by rfl)).1⟩

/-- A successful `sale.save`: the stored document is the pre-save result
and it is appended to the collection. -/
theorem saveSale_ok_elim {sales : List Sale} {s : Sale} {sales1 : List Sale} {s1 : Sale}
    (h : saveSale sales s = .ok (sales1, s1)) :
    s1 = salePreSave sales s true ∧ sales1 = sales ++ [s1] := by
  unfold saveSale at h
  simp only [] at h
  split at h
  · simp at h
  · split at h
    · simp at h
    · simp only [Except.ok.injEq, Prod.mk.injEq] at h
      obtain ⟨h1, h2⟩ := h
      exact ⟨h2.symm, by rw [← h1, ← h2]⟩

/-- Decomposition of a successful `createSale`: the stored sale is the
pre-save result of the raw document, the ledger loop succeeded over the
sale's items, and the committed database appends the sale and installs
the updated stock store. -/
theorem createSale_ok_elim {db : DB} {req : SaleReq} {userId newSaleId : Nat} {sale : Sale}
    (h : (createSale db req userId newSaleId).2 = .ok sale) :
    ∃ saleItems stocks1,
      sale = salePreSave db.sales (mkSale req saleItems userId newSaleId) true ∧
      validateSaleItems db userId ((req.items).getD []) = .ok saleItems ∧
      runCalls db.stocks (sale.items.map fun it =>
        (it.product,
          { type := "sale", quantity := it.quantity
            notes := "Sale Invoice: " ++ sale.invoiceNumber
            sourceDocument := some sale.id, sourceModel := some "Sale"
            movedBy := userId })) = .ok stocks1 ∧
      (createSale db req userId newSaleId).1 =
        { db with sales := db.sales ++ [sale], stocks := stocks1 } := by
  by_cases hpm : (req.paymentMethod).getD "" = ""
  · exfalso; unfold createSale at h; rw [if_pos hpm] at h; simp at h
  cases hitems : req.items with
  | none =>
    exfalso; unfold createSale at h; rw [if_neg hpm, hitems] at h; simp at h
  | some itemsReq =>
    cases itemsReq with
    | nil =>
      exfalso; unfold createSale at h; rw [if_neg hpm, hitems] at h; simp at h
    | cons i0 irest =>
      unfold createSale at h
      rw [if_neg hpm, hitems] at h
      simp only [] at h
      cases hval : validateSaleItems db userId (i0 :: irest) with
      | error e => exfalso; rw [hval] at h; simp at h
      | ok saleItems =>
        rw [hval] at h
        simp only [] at h
        cases hsave : saveSale db.sales (mkSale req saleItems userId newSaleId) with
        | error e => exfalso; rw [hsave] at h; simp at h
        | ok pr =>
          obtain ⟨sales1, s1⟩ := pr
          rw [hsave] at h
          simp only [] at h
          cases hrun : runCalls db.stocks (s1.items.map fun it =>
              (it.product,
                { type := "sale", quantity := it.quantity
                  notes := "Sale Invoice: " ++ s1.invoiceNumber
                  sourceDocument := some s1.id, sourceModel := some "Sale"
                  movedBy := userId })) with
          | error e => exfalso; rw [hrun] at h; simp at h
          | ok stocks1 =>
            rw [hrun] at h
            simp only [Except.ok.injEq] at h
            subst h
            obtain ⟨hs1, hsales1⟩ := saveSale_ok_elim hsave
            refine ⟨saleItems, stocks1, hs1, hval, hrun, ?_⟩
            unfold createSale
            rw [if_neg hpm, hitems]
            simp only []
            rw [hval]
            simp only []
            rw [hsave]
            simp only []
            rw [hrun]
            rw [hsales1]

/-- The pre-save hook's effect on `invoiceNumber`: generate exactly when
the stored value is falsy, keep the client value otherwise. -/
theorem salePreSave_invoice (sales : List Sale) (s : Sale) :
    (s.invoiceNumber = "" →
      (salePreSave sales s true).invoiceNumber = saleNextInvoiceNumber sales) ∧
    (¬ s.invoiceNumber = "" →
      (salePreSave sales s true).invoiceNumber = s.invoiceNumber) := by
  unfold salePreSave
  by_cases h : s.invoiceNumber = "" <;> simp [h]

/-- **C10** — `createSale` spreads the raw body into the document and the
pre-save hook generates an invoice number only when `invoiceNumber` is
falsy: a client-supplied value is stored verbatim after the schema's
trim/uppercase setters; only an absent value receives the next generated
`INV-NNNNNN`. -/
theorem createSale_client_invoice (db : DB) (req : SaleReq) (userId newSaleId : Nat)
    (sale : Sale) (h : (createSale db req userId newSaleId).2 = .ok sale) :
    (∀ v, req.invoiceNumber = some v → ¬ applyStringSetters v = "" →
      sale.invoiceNumber = applyStringSetters v) ∧
    (req.invoiceNumber = none → sale.invoiceNumber = saleNextInvoiceNumber db.sales) := by
  obtain ⟨saleItems, stocks1, hsale, -, -, -⟩ := createSale_ok_elim h
  constructor
  · intro v hv hne
    have hmk : (mkSale req saleItems userId newSaleId).invoiceNumber = applyStringSetters v := by
      simp [mkSale, hv]
    rw [hsale, (salePreSave_invoice db.sales _).2 (by rw [hmk]; exact hne), hmk]
  · intro hv
    have hmk : (mkSale req saleItems userId newSaleId).invoiceNumber = "" := by
      simp only [mkSale, hv, Option.getD]
      rfl
    rw [hsale, (salePreSave_invoice db.sales _).1 hmk]

/-- A successful sale request against `saleDB` that supplies its own
invoice number (stored as `INV-7`, not as the generated `INV-000001`). -/
def invReq : SaleReq :=
  { invoiceNumber := some " inv-7 "
    items := some [{ product := some 1, quantity := some 2, unitPrice := some 3 }]
    paymentMethod := some "cash" }

/-- The sale document `createSale saleDB invReq 2 10` stores. -/
def wSaleInv : Sale :=
  { id := 10
    invoiceNumber := "INV-7"
    items := [{ product := 1, quantity := 2, unitPrice := 3, totalPrice := 6 }]
    totalAmount := 6
    paymentMethod := "cash"
    createdBy := 2 }

theorem createSale_client_invoice_witness :
    (createSale saleDB invReq 2 10).2 = .ok wSaleInv ∧
    invReq.invoiceNumber = some " inv-7 " ∧
    ¬ applyStringSetters " inv-7 " = "" ∧
    wSaleInv.invoiceNumber = applyStringSetters " inv-7 " :=
  ⟨by rfl, rfl, by decide,
   (createSale_client_invoice saleDB invReq 2 10 wSaleInv (by rfl)).1 " inv-7 " rfl (by decide)⟩

/-! ### Cancellation round trip -/

/-- The pre-save hook only touches `totalAmount` and (possibly)
`invoiceNumber`. -/
theorem salePreSave_fields (sales : List Sale) (s : Sale) (isNew : Bool) :
    (salePreSave sales s isNew).id = s.id ∧
    (salePreSave sales s isNew).createdBy = s.createdBy ∧
    (salePreSave sales s isNew).items = s.items := by
  unfold salePreSave
  refine ⟨?_, ?_, ?_⟩ <;> (simp only []; split <;> rfl)

theorem find?_append_singleton {α : Type} (l : List α) (x : α) (p : α → Bool)
    (hl : ∀ t ∈ l, p t = false) (hx : p x = true) :
    (l ++ [x]).find? p = some x := by
  induction l with
  | nil => simp [List.find?, hx]
  | cons a rest ih =>
    have ha := hl a (by simp)
    simp only [List.cons_append, List.find?, ha]
    exact ih (fun t ht => hl t (by simp [ht]))

/-- Total quantity a sale's items request for product `p`. -/
def saleQtySum (p : Nat) (items : List SaleItem) : Int :=
  ((items.filter (fun it => it.product = p)).map (fun it => it.quantity)).sum

theorem saleQtySum_cons (p : Nat) (it : SaleItem) (rest : List SaleItem) :
    saleQtySum p (it :: rest) =
      (if it.product = p then it.quantity else 0) + saleQtySum p rest := by
  by_cases hp : it.product = p <;> simp [saleQtySum, List.filter_cons, hp]

theorem sumSigned_saleCalls (p : Nat) (items : List SaleItem) (n : String)
    (sd : Option Nat) (sm : Option String) (u : Nat) :
    sumSigned p (items.map fun it =>
      (it.product, { type := "sale", quantity := it.quantity, notes := n
                     sourceDocument := sd, sourceModel := sm, movedBy := u })) =
      - saleQtySum p items := by
  induction items with
  | nil => simp [sumSigned, saleQtySum]
  | cons it rest ih =>
    rw [List.map_cons, sumSigned_cons, saleQtySum_cons, ih]
    by_cases hp : it.product = p <;> simp [hp, signedOf] <;> ring

theorem sumSigned_returnCalls (p : Nat) (items : List SaleItem) (n : String)
    (sd : Option Nat) (sm : Option String) (u : Nat) :
    sumSigned p (items.map fun it =>
      (it.product, { type := "return", quantity := it.quantity, notes := n
                     sourceDocument := sd, sourceModel := sm, movedBy := u })) =
      saleQtySum p items := by
  induction items with
  | nil => simp [sumSigned, saleQtySum]
  | cons it rest ih =>
    rw [List.map_cons, sumSigned_cons, saleQtySum_cons, ih]
    by_cases hp : it.product = p <;> simp [hp, signedOf] <;> ring

theorem entriesFor_saleItems (p : Nat) (items : List SaleItem) (t n : String)
    (sd : Option Nat) (sm : Option String) (u : Nat) :
    entriesFor p (items.map fun it =>
      (it.product, { type := t, quantity := it.quantity, notes := n
                     sourceDocument := sd, sourceModel := sm, movedBy := u })) =
      (items.filter (fun it => it.product = p)).map
        (fun it => mkEntry t it.quantity n sd sm u) := by
  induction items with
  | nil => simp [entriesFor]
  | cons it rest ih =>
    rw [List.map_cons, entriesFor_cons, ih]
    by_cases hp : it.product = p <;>
      simp [List.filter_cons, hp, entryOf_eq_mkEntry, mkEntry]

/-- **C5** — cancellation round trip: after a committed sale, `cancelSale`
on that sale succeeds, records one `"return"` movement per item with the
item's quantity (restoring every product's `currentStock` to its
pre-sale value) and deletes the Sale document, all in one transaction, so
no sale with that id remains retrievable. -/
theorem sale_cancel_roundtrip (db : DB) (req : SaleReq) (userId newSaleId : Nat) (sale : Sale)
    (hnn : storeNonneg db.stocks)
    (hfresh : ∀ s ∈ db.sales, ¬ s.id = newSaleId)
    (h : (createSale db req userId newSaleId).2 = .ok sale) :
    ∃ db2, cancelSale (createSale db req userId newSaleId).1 newSaleId userId = (db2, .ok ()) ∧
      (∀ p, currentStockOf db2.stocks p = currentStockOf db.stocks p) ∧
      (∀ p, historyOf db2.stocks p =
        historyOf (createSale db req userId newSaleId).1.stocks p ++
          (sale.items.filter (fun it => it.product = p)).map
            (fun it => mkEntry "return" it.quantity
              ("Cancellation for INV: " ++ sale.invoiceNumber) (some sale.id) (some "Sale")
              userId)) ∧
      (∀ s ∈ db2.sales, ¬ s.id = newSaleId) := by
  obtain ⟨saleItems, stocks1, hsale, hval, hrun, hdb1⟩ := createSale_ok_elim h
  have hid : sale.id = newSaleId := by
    rw [hsale, (salePreSave_fields _ _ _).1]; rfl
  have hcb : sale.createdBy = userId := by
    rw [hsale, (salePreSave_fields _ _ _).2.1]; rfl
  have hpos : ∀ it ∈ sale.items, 0 < it.quantity := fun it hit =>
    (runCalls_ok_calls hrun _ (List.mem_map_of_mem _ hit)).1
  have hnn1 : storeNonneg stocks1 := runCalls_ok_nonneg hrun hnn
  have hfind : (db.sales ++ [sale]).find?
      (fun s => s.id = newSaleId && s.createdBy = userId) = some sale := by
    refine find?_append_singleton _ _ _ ?_ ?_
    · intro t ht
      have hne : ¬ t.id = newSaleId := hfresh t ht
      simp [hne]
    · simp [hid, hcb]
  have hcalls : ∀ pc ∈ (sale.items.map fun it =>
      (it.product,
        ({ type := "return", quantity := it.quantity
           notes := "Cancellation for INV: " ++ sale.invoiceNumber
           sourceDocument := some sale.id, sourceModel := some "Sale"
           movedBy := userId } : MovementCall))),
      isIncreaseType pc.2.type = true ∧ 0 < pc.2.quantity := by
    intro pc hpc
    obtain ⟨it, hit, rfl⟩ := List.mem_map.mp hpc
    exact ⟨rfl, hpos it hit⟩
  obtain ⟨st2, hok2⟩ := runCalls_inc_ok hcalls hnn1
  let db2 : DB := { db with stocks := st2, sales := (db.sales ++ [sale]).filter (fun s => ¬ s.id = newSaleId) }
  refine ⟨db2, ?_, ?_, ?_, ?_⟩
  · rw [hdb1]
    unfold cancelSale
    simp only []
    rw [hfind]
    simp only []
    rw [hok2]
  · intro p
    have e2 := (runCalls_ok_stock hok2 p).1
    have e1 := (runCalls_ok_stock hrun p).1
    rw [sumSigned_returnCalls] at e2
    rw [sumSigned_saleCalls] at e1
    simp only []
    omega
  · intro p
    have e2 := (runCalls_ok_stock hok2 p).2
    rw [entriesFor_saleItems] at e2
    rw [hdb1]
    exact e2
  · intro s hs
    simp only [List.mem_filter, decide_not] at hs
    have := hs.2
    simpa using this

/-- Sale request used for the round-trip witness: one item, 2 units of
product 1 at price 3. -/
def okReq : SaleReq :=
  { invoiceNumber := none
    items := some [{ product := some 1, quantity := some 2, unitPrice := some 3 }]
    paymentMethod := some "cash" }

/-- The sale document `createSale saleDB okReq 2 10` stores. -/
def wSaleOk : Sale :=
  { id := 10
    invoiceNumber := "INV-000001"
    items := [{ product := 1, quantity := 2, unitPrice := 3, totalPrice := 6 }]
    totalAmount := 6
    paymentMethod := "cash"
    createdBy := 2 }

theorem sale_cancel_roundtrip_witness :
    storeNonneg saleDB.stocks ∧
    (∀ s ∈ saleDB.sales, ¬ s.id = 10) ∧
    (createSale saleDB okReq 2 10).2 = .ok wSaleOk ∧
    (∃ db2, cancelSale (createSale saleDB okReq 2 10).1 10 2 = (db2, .ok ()) ∧
      (∀ p, currentStockOf db2.stocks p = currentStockOf saleDB.stocks p) ∧
      (∀ p, historyOf db2.stocks p =
        historyOf (createSale saleDB okReq 2 10).1.stocks p ++
          (wSaleOk.items.filter (fun it => it.product = p)).map
            (fun it => mkEntry "return" it.quantity
              ("Cancellation for INV: " ++ wSaleOk.invoiceNumber) (some wSaleOk.id)
              (some "Sale") 2)) ∧
      (∀ s ∈ db2.sales, ¬ s.id = 10)) := by
  have h1 : storeNonneg saleDB.stocks := by
    intro p
    by_cases hp : p = 1
    · rw [hp]; decide
    · show (0 : Int) ≤ currentStockOf (StockStore.empty.set 1 _) p
      rw [currentStockOf_set_other _ _ hp]
      simp [currentStockOf, StockStore.empty]
  have h2 : ∀ s ∈ saleDB.sales, ¬ s.id = 10 := by
    intro s hs; simp [saleDB] at hs
  exact ⟨h1, h2, by rfl, sale_cancel_roundtrip saleDB okReq 2 10 wSaleOk h1 h2 (by rfl)⟩

/-! ### Purchase workflow: state machine, frame and numbering -/

/-- An `ordered` purchase owned by user 9: 5 units of product 2 at cost 3. -/
def wPurchOrdered : Purchase :=
  { id := 1
    purchaseNumber := "PO-000001"
    supplier := 4
    items := [{ product := 2, quantity := 5, unitCost := 3, totalCost := 15 }]
    totalAmount := 15
    purchaseStatus := .ordered
    paymentMethod := "cash"
    createdBy := 9 }

/-- Witness database for the purchase workflow. -/
def purchDB : DB :=
  { products := fun p => if p = 2 then some { isActive := true, createdBy := 9 } else none
    suppliers := fun s => if s = 4 then some { isActive := true, createdBy := 9 } else none
    stocks := StockStore.empty.set 2 { currentStock := 0, movementHistory := [] }
    sales := []
    purchases := [wPurchOrdered] }

/-- An update body carrying only `purchaseStatus: "received"`. -/
def statusOnlyUpd : PurchaseUpdate :=
  { purchaseNumber := none, supplier := none, items := none
    purchaseStatus := some .received, paymentMethod := none }

/-- **C6 (counterexample)** — the claim that a purchase transitions to
`received` only via `receivePurchase` is false: `updatePurchase` passes
the raw body to `findByIdAndUpdate`, so an update carrying
`purchaseStatus: "received"` flips an `ordered` purchase to `received`
without touching the stock ledger at all. -/
theorem updatePurchase_flips_status :
    (updatePurchase purchDB 1 statusOnlyUpd 9).2 =
      .ok { wPurchOrdered with purchaseStatus := .received } ∧
    (updatePurchase purchDB 1 statusOnlyUpd 9).1.purchases.find? (fun p => p.id = 1) =
      some { wPurchOrdered with purchaseStatus := .received } ∧
    (updatePurchase purchDB 1 statusOnlyUpd 9).1.stocks = purchDB.stocks := by
  refine ⟨by rfl, by rfl, by rfl⟩

/-- **C6 (amended)** — terminal-state closure holds: every receive,
update or cancel attempted on a purchase already `received` or
`cancelled` fails with an `InvalidStateTransition` error and leaves the
database (hence the status) unchanged, and `cancelPurchase` reports
"Cannot cancel a received purchase." versus "Purchase has already been
cancelled."; but transitions out of `ordered` are NOT exclusive to
`receivePurchase`/`cancelPurchase` — `updatePurchase` can also set the
status (see the counterexample). -/
theorem purchase_state_machine (db : DB) (purchaseId userId : Nat) (purchase : Purchase)
    (hfind : db.purchases.find? (fun p => p.id = purchaseId && p.createdBy = userId)
      = some purchase)
    (hterm : purchase.purchaseStatus = .received ∨ purchase.purchaseStatus = .cancelled) :
    receivePurchase db purchaseId userId =
      (db, .error (.cannotReceive purchase.purchaseStatus)) ∧
    (∀ upd, updatePurchase db purchaseId upd userId =
      (db, .error (.cannotUpdate purchase.purchaseStatus))) ∧
    cancelPurchase db purchaseId userId =
      (db, .error (if purchase.purchaseStatus = .cancelled then .alreadyCancelled
                   else .cannotCancelReceived)) ∧
    PurchaseError.message .cannotCancelReceived = "Cannot cancel a received purchase." ∧
    PurchaseError.message .alreadyCancelled = "Purchase has already been cancelled." ∧
    ¬ PurchaseError.message .cannotCancelReceived = PurchaseError.message .alreadyCancelled := by
  have hnord : ¬ purchase.purchaseStatus = .ordered := by
    rcases hterm with h1 | h1 <;> rw [h1] <;> intro hc <;> cases hc
  refine ⟨?_, ?_, ?_, rfl, rfl, by decide⟩
  · unfold receivePurchase
    rw [hfind]
    simp only []
    rw [if_pos hnord]
  · intro upd
    unfold updatePurchase
    rw [hfind]
    simp only []
    rw [if_pos hterm]
  · unfold cancelPurchase
    rw [hfind]
    rcases hterm with h1 | h1
    · simp [h1]
    · simp [h1]

/-- A `received` purchase used to witness the terminal-state closure. -/
def wPurchReceived : Purchase :=
  { wPurchOrdered with id := 2, purchaseNumber := "PO-000002"
                       purchaseStatus := .received }

/-- Database whose only purchase is already received. -/
def purchRecDB : DB :=
  { purchDB with purchases := [wPurchReceived] }

theorem purchase_state_machine_witness :
    purchRecDB.purchases.find? (fun p => p.id = 2 && p.createdBy = 9) = some wPurchReceived ∧
    (wPurchReceived.purchaseStatus = .received ∨ wPurchReceived.purchaseStatus = .cancelled) ∧
    cancelPurchase purchRecDB 2 9 =
      (purchRecDB, .error (if wPurchReceived.purchaseStatus = .cancelled then .alreadyCancelled
                           else .cannotCancelReceived)) :=
  ⟨rfl, Or.inl rfl,
   (purchase_state_machine purchRecDB 2 9 wPurchReceived rfl (Or.inl rfl)).2.2.1⟩

/-- The status a successful `createPurchase` stores: the body's
`purchaseStatus` when supplied, the schema default `ordered` otherwise. -/
theorem createPurchase_status (db : DB) (req : PurchaseReq) (u i : Nat) (p2 : Purchase)
    (h : (createPurchase db req u i).2 = .ok p2) :
    p2.purchaseStatus = (req.purchaseStatus).getD .ordered := by
  rcases hcs : createPurchase db req u i with ⟨db1, res⟩
  rw [hcs] at h
  simp only [] at h
  unfold createPurchase at hcs
  repeat' first
    | split at hcs
    | simp only [] at hcs
  all_goals injection hcs with h1 h2
  all_goals rw [← h2] at h
  all_goals simp at h
  all_goals rw [← h]
  all_goals rfl

/-- Decomposition of a successful `receivePurchase`. -/
theorem receivePurchase_ok_elim {db : DB} {purchaseId userId : Nat} {p1 : Purchase}
    (h : (receivePurchase db purchaseId userId).2 = .ok p1) :
    ∃ purchase stocks1 purchases1,
      db.purchases.find? (fun p => p.id = purchaseId && p.createdBy = userId) = some purchase ∧
      purchase.purchaseStatus = .ordered ∧
      runCalls db.stocks (purchase.items.map fun it =>
        (it.product,
          { type := "purchase", quantity := it.quantity
            notes := "Receipt for PO: " ++ purchase.purchaseNumber
            sourceDocument := some purchase.id, sourceModel := some "Purchase"
            movedBy := userId })) = .ok stocks1 ∧
      savePurchase db.purchases { purchase with purchaseStatus := .received } = .ok purchases1 ∧
      (receivePurchase db purchaseId userId).1 =
        { db with stocks := stocks1, purchases := purchases1 } ∧
      p1 = purchasePreSave { purchase with purchaseStatus := .received } := by
  cases hfind : db.purchases.find? (fun p => p.id = purchaseId && p.createdBy = userId) with
  | none =>
    exfalso; unfold receivePurchase at h; rw [hfind] at h; simp at h
  | some purchase =>
    by_cases hord : ¬ purchase.purchaseStatus = .ordered
    · exfalso
      unfold receivePurchase at h
      rw [hfind] at h
      simp only [] at h
      rw [if_pos hord] at h
      simp at h
    · cases hrun : runCalls db.stocks (purchase.items.map fun it =>
          (it.product,
            { type := "purchase", quantity := it.quantity
              notes := "Receipt for PO: " ++ purchase.purchaseNumber
              sourceDocument := some purchase.id, sourceModel := some "Purchase"
              movedBy := userId })) with
      | error e =>
        exfalso
        unfold receivePurchase at h
        rw [hfind] at h
        simp only [] at h
        rw [if_neg hord, hrun] at h
        simp at h
      | ok stocks1 =>
        cases hsaveP : savePurchase db.purchases { purchase with purchaseStatus := .received } with
        | error e =>
          exfalso
          unfold receivePurchase at h
          rw [hfind] at h
          simp only [] at h
          rw [if_neg hord, hrun] at h
          simp only [] at h
          rw [hsaveP] at h
          simp at h
        | ok purchases1 =>
          refine ⟨purchase, stocks1, purchases1, rfl, not_not.mp hord, hrun, hsaveP, ?_, ?_⟩
          · unfold receivePurchase
            rw [hfind]
            simp only []
            rw [if_neg hord, hrun]
            simp only []
            rw [hsaveP]
          · unfold receivePurchase at h
            rw [hfind] at h
            simp only [] at h
            rw [if_neg hord, hrun] at h
            simp only [] at h
            rw [hsaveP] at h
            simp only [Except.ok.injEq] at h
            exact h.symm

/-- Total quantity a purchase's items order for product `p`. -/
def purchaseQtySum (p : Nat) (items : List PurchaseItem) : Int :=
  ((items.filter (fun it => it.product = p)).map (fun it => it.quantity)).sum

theorem purchaseQtySum_cons (p : Nat) (it : PurchaseItem) (rest : List PurchaseItem) :
    purchaseQtySum p (it :: rest) =
      (if it.product = p then it.quantity else 0) + purchaseQtySum p rest := by
  by_cases hp : it.product = p <;> simp [purchaseQtySum, List.filter_cons, hp]

theorem sumSigned_purchaseCalls (p : Nat) (items : List PurchaseItem) (n : String)
    (sd : Option Nat) (sm : Option String) (u : Nat) :
    sumSigned p (items.map fun it =>
      (it.product, { type := "purchase", quantity := it.quantity, notes := n
                     sourceDocument := sd, sourceModel := sm, movedBy := u })) =
      purchaseQtySum p items := by
  induction items with
  | nil => simp [sumSigned, purchaseQtySum]
  | cons it rest ih =>
    rw [List.map_cons, sumSigned_cons, purchaseQtySum_cons, ih]
    by_cases hp : it.product = p <;> simp [hp, signedOf]

theorem entriesFor_purchaseItems (p : Nat) (items : List PurchaseItem) (t n : String)
    (sd : Option Nat) (sm : Option String) (u : Nat) :
    entriesFor p (items.map fun it =>
      (it.product, { type := t, quantity := it.quantity, notes := n
                     sourceDocument := sd, sourceModel := sm, movedBy := u })) =
      (items.filter (fun it => it.product = p)).map
        (fun it => mkEntry t it.quantity n sd sm u) := by
  induction items with
  | nil => simp [entriesFor]
  | cons it rest ih =>
    rw [List.map_cons, entriesFor_cons, ih]
    by_cases hp : it.product = p <;>
      simp [List.filter_cons, hp, entryOf_eq_mkEntry, mkEntry]

/-- **C8** — `createPurchase` never reads or writes any stock record
(every product's counter and history are untouched) and, when the body
carries no status, creates the purchase in the `ordered` state; stock is
applied only by `receivePurchase`, which — inside one transaction —
records exactly one `"purchase"` movement per item carrying that item's
quantity and then sets the status to `received`. -/
theorem createPurchase_no_stock (db0 : DB) (req : PurchaseReq) (u0 i0 : Nat)
    (db : DB) (purchaseId userId : Nat) (p1 : Purchase)
    (h : (receivePurchase db purchaseId userId).2 = .ok p1) :
    (createPurchase db0 req u0 i0).1.stocks = db0.stocks ∧
    (req.purchaseStatus = none → ∀ p2, (createPurchase db0 req u0 i0).2 = .ok p2 →
      p2.purchaseStatus = .ordered) ∧
    p1.purchaseStatus = .received ∧
    ∃ purchase,
      db.purchases.find? (fun p => p.id = purchaseId && p.createdBy = userId) = some purchase ∧
      purchase.purchaseStatus = .ordered ∧
      (∀ p, currentStockOf (receivePurchase db purchaseId userId).1.stocks p =
        currentStockOf db.stocks p + purchaseQtySum p purchase.items) ∧
      (∀ p, historyOf (receivePurchase db purchaseId userId).1.stocks p =
        historyOf db.stocks p ++
          (purchase.items.filter (fun it => it.product = p)).map
            (fun it => mkEntry "purchase" it.quantity
              ("Receipt for PO: " ++ purchase.purchaseNumber) (some purchase.id)
              (some "Purchase") userId)) := by
  obtain ⟨purchase, stocks1, purchases1, hfind, hord, hrun, hsaveP, hdb1, hp1⟩ :=
    receivePurchase_ok_elim h
  refine ⟨createPurchase_stocks_eq db0 req u0 i0, ?_, ?_, purchase, hfind, hord, ?_, ?_⟩
  · intro hnone p2 hok
    rw [createPurchase_status db0 req u0 i0 p2 hok, hnone]
    rfl
  · rw [hp1]
    rfl
  · intro p
    have e1 := (runCalls_ok_stock hrun p).1
    rw [sumSigned_purchaseCalls] at e1
    rw [hdb1]
    exact e1
  · intro p
    have e1 := (runCalls_ok_stock hrun p).2
    rw [entriesFor_purchaseItems] at e1
    rw [hdb1]
    exact e1

theorem createPurchase_no_stock_witness :
    (receivePurchase purchDB 1 9).2 =
      .ok { wPurchOrdered with purchaseStatus := .received } ∧
    (createPurchase purchDB
      { purchaseNumber := some "PO-000009", supplier := some 4
        items := some [{ product := some 2, quantity := some 1, unitCost := some 2 }]
        purchaseStatus := none, paymentMethod := some "cash" } 9 8).1.stocks =
      purchDB.stocks :=
  ⟨by rfl,
   (createPurchase_no_stock purchDB
     { purchaseNumber := some "PO-000009", supplier := some 4
       items := some [{ product := some 2, quantity := some 1, unitCost := some 2 }]
       purchaseStatus := none, paymentMethod := some "cash" } 9 8
     purchDB 1 9 { wPurchOrdered with purchaseStatus := .received } (by rfl)).1⟩

/-- The purchase pre-save hook never assigns a document number. -/
theorem purchasePreSave_number (p : Purchase) :
    (purchasePreSave p).purchaseNumber = p.purchaseNumber := rfl

/-- **C9 (amended)** — invoice numbers are auto-generated by the `Sale`
pre-save hook: parse the numeric suffix of the sort-wise greatest
existing `invoiceNumber`, add one, format as `INV-` plus six padded
digits.  Purchase numbers are NOT generated by the live `Purchase`
model: its pre-save hook only recomputes `totalAmount`, and saving a
purchase without a client-supplied `purchaseNumber` fails the schema's
`required` validation instead of assigning `PO-NNNNNN`. -/
theorem invoice_numbering (sales : List Sale) (s : Sale) (inv : String) (k : Int)
    (hlast : lastInvoiceNumber sales = some inv)
    (hparse : parseIntJS (replaceFirst inv "INV-") = some k)
    (hempty : s.invoiceNumber = "") :
    (salePreSave sales s true).invoiceNumber = "INV-" ++ padStart (toString (k + 1)) 6 '0' ∧
    (∀ p : Purchase, (purchasePreSave p).purchaseNumber = p.purchaseNumber) ∧
    (∀ (purchases : List Purchase) (p : Purchase), p.purchaseNumber = "" →
      savePurchase purchases p = .error .validationFailed) := by
  refine ⟨?_, fun p => rfl, ?_⟩
  · rw [(salePreSave_invoice sales s).1 hempty]
    unfold saleNextInvoiceNumber
    rw [hlast]
    simp only []
    rw [hparse]
  · intro purchases p hp
    unfold savePurchase
    rw [if_pos ?_]
    simp [purchaseValid, purchasePreSave, hp]

/-- Sale fixture with an existing generated invoice number. -/
def wSaleSeven : Sale :=
  { id := 1, invoiceNumber := "INV-000007", items := [], totalAmount := 0
    paymentMethod := "cash", createdBy := 2 }

/-- A new sale document with no invoice number yet. -/
def wSaleBlank : Sale :=
  { id := 2, invoiceNumber := "", items := [], totalAmount := 0
    paymentMethod := "cash", createdBy := 2 }

theorem invoice_numbering_witness :
    lastInvoiceNumber [wSaleSeven] = some "INV-000007" ∧
    parseIntJS (replaceFirst "INV-000007" "INV-") = some 7 ∧
    wSaleBlank.invoiceNumber = "" ∧
    (salePreSave [wSaleSeven] wSaleBlank true).invoiceNumber =
      "INV-" ++ padStart (toString ((7 : Int) + 1)) 6 '0' :=
  ⟨rfl, by decide, rfl,
   (invoice_numbering [wSaleSeven] wSaleBlank "INV-000007" 7 rfl (by decide) rfl).1⟩

/-- A purchase document whose body supplied no `purchaseNumber`. -/
def wPurchNoNum : Purchase :=
  { id := 3, purchaseNumber := "", supplier := 4
    items := [{ product := 2, quantity := 1, unitCost := 2, totalCost := 2 }]
    totalAmount := 0, purchaseStatus := .ordered, paymentMethod := "cash", createdBy := 9 }

/-- **C9 (counterexample)** — a purchase created without a client
`purchaseNumber` is NOT assigned `PO-000001` by the live model: the save
fails the `required` validation and the pre-save hook leaves the number
empty, refuting "purchaseNumber is assigned sequentially by the same
scheme". -/
theorem purchase_number_not_generated :
    savePurchase [] wPurchNoNum = .error .validationFailed ∧
    (purchasePreSave wPurchNoNum).purchaseNumber = "" ∧
    ¬ (purchasePreSave wPurchNoNum).purchaseNumber = "PO-000001" := by
  refine ⟨by rfl, rfl, by decide⟩

end QuickStock
